import Mathlib

/-!
ttsntpd: calendar conversion, NTP timestamp conversion and the time-of-day
controller.

Shallow embedding of `rtc.c` (`tm2tv`, `tv2tm`), `sntp.c` (`tv2nt`, `nt2tv`,
`ts2nt`, `sntp_open`, `sntp_close`, `sntp_send`, `sntp_pending`, `sntp_poll`,
`sntp_recv`), `sntp.h` (the comparison macros), `tod.c` (`tod_open`, `tod_step`,
`tod_slew`, `tod_set`), `rtc_get`, and the option loop and threshold tests of
`main` in `rtcd.c`, followed by the properties proved about them.
System calls are answered by explicit parameters.

Machine integers.  `int` is 32 bits; its arithmetic is written with `wrap32`
(two's complement wrap-around) wherever an `int` operation of the source can
leave the 32-bit range: the sum in `tm2tv`, and the year counter of `tv2tm`
(`++y`, `y - 1900`).  `long long` is 64 bits; the microsecond counts of `tod.c`
are formed with `wrap64`.  `uint32_t` and `uint64_t` values are naturals reduced
modulo `2^32` and `2^64`.  `time_t` is 64 bits wide; the operations of `tv2tm`
on its `time_t` local (division, remainder, `t + 4` on a day count, subtraction
of a year or month length from a value that is not smaller) cannot leave the
64-bit range, so that local is kept exact.
-/

namespace Ttsntpd

/-! ## rtc.c -/

/-- The nine `int` fields of `struct tm` that `tv2tm` writes and `tm2tv` reads. -/
structure Tm where
  tm_sec : Int
  tm_min : Int
  tm_hour : Int
  tm_mday : Int
  tm_mon : Int
  tm_year : Int
  tm_wday : Int
  tm_yday : Int
  tm_isdst : Int
deriving DecidableEq, Repr

/-- The two fields of `struct timeval`. -/
structure Timeval where
  tv_sec : Int
  tv_usec : Int
deriving DecidableEq, Repr

/-- Reduction of an exact integer to the value a 32-bit `int` holds. -/
def wrap32 (x : Int) : Int := (x + 2147483648) % 4294967296 - 2147483648

/-- Addition of two `int` values. -/
def iadd (a b : Int) : Int := wrap32 (a + b)

/-- Subtraction of two `int` values. -/
def isub (a b : Int) : Int := wrap32 (a - b)

/-- Multiplication of two `int` values. -/
def imul (a b : Int) : Int := wrap32 (a * b)

/-- Division of two `int` values; C truncates toward zero. -/
def idiv (a b : Int) : Int := wrap32 (Int.tdiv a b)

/-- The function `tm2tv` of rtc.c.  Every operand is an `int`, so the sum is
evaluated left to right in `int` and only the result is widened to `time_t`. -/
def tm2tv (tm : Tm) : Timeval :=
  { tv_sec :=
      iadd
        (isub
          (iadd
            (iadd
              (iadd
                (iadd
                  (iadd tm.tm_sec (imul tm.tm_min 60))
                  (imul tm.tm_hour 3600))
                (imul tm.tm_yday 86400))
              (imul (isub tm.tm_year 70) 31536000))
            (imul (idiv (isub tm.tm_year 69) 4) 86400))
          (imul (idiv (isub tm.tm_year 1) 100) 86400))
        (imul (idiv (iadd tm.tm_year 299) 400) 86400)
    tv_usec := 0 }

/-- The table `mdays` of rtc.c. -/
def mdays : List Int := [31, 28, 31, 30, 31, 30, 31, 31, 30, 31, 30, 31]

/-- The expression `((y % 4 == 0) && ((y % 100 != 0) || (y % 400 == 0)))`
assigned to `l` in `tv2tm`, an `int` that is 0 or 1. -/
def leapFlag (y : Int) : Int :=
  if Int.tmod y 4 = 0 ∧ (Int.tmod y 100 ≠ 0 ∨ Int.tmod y 400 = 0) then 1 else 0

/-- The first loop of `tv2tm` (year and day of year), started at `(t, y)`.
`t` is a `time_t`; `y`, `l` and `d` are `int`, so `++y` is an `int` increment
(`d = 365 + l` is 365 or 366).  It returns the values of `t`, `y` and `l` at the
`break`; `none` only when the fuel is used up before the loop exits. -/
def yearLoop : Nat → Int → Int → Option (Int × Int × Int)
  | 0, _, _ => none
  | fuel + 1, t, y =>
    let l := leapFlag y
    let d := 365 + l
    if t < d then some (t, y, l) else yearLoop fuel (t - d) (iadd y 1)

/-- The second loop of `tv2tm` (month and day of month), started at `(t, m)`
with leap flag `l`.  It returns the values of `t` and `m` at the `break`;
`none` when `mdays[m]` is read with `m` outside the table.  Index 12 is
already outside, so a fuel of 13 never runs out first. -/
def monthLoop (l : Int) : Nat → Int → Nat → Option (Int × Nat)
  | 0, _, _ => none
  | fuel + 1, t, m =>
    match mdays[m]? with
    | none => none
    | some md =>
      let d := md + (if l ≠ 0 ∧ m = 1 then 1 else 0)
      if t < d then some (t, m) else monthLoop l fuel (t - d) (m + 1)

/-- The function `tv2tm` of rtc.c.  `t` is a `time_t` and is kept exact; the
year counter `y` is an `int`, so `++y` and `y - 1900` are `int` operations.  The
year loop subtracts at least 365 from `t` in every round, so `t + 1` rounds of
fuel are more than it can use. -/
def tv2tm (tv : Timeval) : Option Tm :=
  let t0 := tv.tv_sec
  let sec := Int.tmod t0 60
  let t1 := Int.tdiv t0 60
  let min := Int.tmod t1 60
  let t2 := Int.tdiv t1 60
  let hour := Int.tmod t2 24
  let t3 := Int.tdiv t2 24
  let wday := Int.tmod (t3 + 4) 7
  match yearLoop (t3.toNat + 1) t3 1970 with
  | none => none
  | some (t4, y, l) =>
    match monthLoop l 13 t4 0 with
    | none => none
    | some (t5, m) =>
      some { tm_sec := sec, tm_min := min, tm_hour := hour,
             tm_mday := t5 + 1, tm_mon := (m : Int), tm_year := isub y 1900,
             tm_wday := wday, tm_yday := t4, tm_isdst := 0 }

/-- The table `dates` of the self-test in rtc.c. -/
def dates : List Int :=
  [0, 36633599, 36633600, 68169599, 68169600, 251263800, 536870911, 536870912,
   951782399, 951782400, 951868799, 951868800, 1073741823, 1073741824, 2147483647]

/-! ## The proleptic Gregorian calendar, as the reference for rtc.c -/

/-- The leap-year rule: divisible by 4 and (not divisible by 100 or divisible
by 400). -/
def isLeapYear (y : Int) : Prop := y % 4 = 0 ∧ (y % 100 ≠ 0 ∨ y % 400 = 0)

instance (y : Int) : Decidable (isLeapYear y) := by
  unfold isLeapYear; infer_instance

/-- Number of days of the year `y`. -/
def yearLength (y : Int) : Int := if isLeapYear y then 366 else 365

/-- Number of days of month `m` (0 = January) in the year `y`. -/
def monthLength (y : Int) (m : Nat) : Int :=
  match m with
  | 0 => 31
  | 1 => if isLeapYear y then 29 else 28
  | 2 => 31
  | 3 => 30
  | 4 => 31
  | 5 => 30
  | 6 => 31
  | 7 => 31
  | 8 => 30
  | 9 => 31
  | 10 => 30
  | 11 => 31
  | _ => 0

/-- Days from 1 January 1970 to 1 January of the year `1970 + k`. -/
def daysToYear : Nat → Int
  | 0 => 0
  | k + 1 => daysToYear k + yearLength (1970 + (k : Int))

/-- Days from 1 January of `y` to the first day of month `m` of `y`. -/
def daysToMonth (y : Int) : Nat → Int
  | 0 => 0
  | m + 1 => daysToMonth y m + monthLength y m

/-- Days from 1 January 1970 to the calendar date held in `c`
(year `tm_year + 1900`, month `tm_mon + 1`, day `tm_mday`). -/
def daysFromEpoch (c : Tm) : Int :=
  daysToYear (c.tm_year - 70).toNat + daysToMonth (c.tm_year + 1900) c.tm_mon.toNat
    + (c.tm_mday - 1)

/-- Seconds from 1970-01-01T00:00:00Z to the civil time held in `c`. -/
def epochSeconds (c : Tm) : Int :=
  daysFromEpoch c * 86400 + c.tm_hour * 3600 + c.tm_min * 60 + c.tm_sec

/-- A valid civil time of 1970 or later: month 1-12, day within the month, time
of day in range, day-of-year and weekday consistent with the date, no DST. -/
def ValidCivil (c : Tm) : Prop :=
  70 ≤ c.tm_year ∧
  0 ≤ c.tm_mon ∧ c.tm_mon ≤ 11 ∧
  1 ≤ c.tm_mday ∧ c.tm_mday ≤ monthLength (c.tm_year + 1900) c.tm_mon.toNat ∧
  0 ≤ c.tm_hour ∧ c.tm_hour ≤ 23 ∧
  0 ≤ c.tm_min ∧ c.tm_min ≤ 59 ∧
  0 ≤ c.tm_sec ∧ c.tm_sec ≤ 59 ∧
  c.tm_yday = daysToMonth (c.tm_year + 1900) c.tm_mon.toNat + (c.tm_mday - 1) ∧
  c.tm_wday = (daysFromEpoch c + 4) % 7 ∧
  c.tm_isdst = 0

instance (c : Tm) : Decidable (ValidCivil c) := by
  unfold ValidCivil; infer_instance

/-! ## sntp.c: timestamp conversion -/

/-- The two `uint32_t` fields of `struct ntptime`. -/
structure Ntptime where
  sec : Nat
  frac : Nat
deriving DecidableEq, Repr

/-- The constant `UNIX_EPOCH` of sntp.h. -/
def UNIX_EPOCH : Nat := 2208988800

/-- Conversion of a signed value to a 64-bit unsigned one (`uint64_t`,
`unsigned long`). -/
def toU64 (x : Int) : Nat := (x % 18446744073709551616).toNat

/-- Conversion of a 64-bit unsigned value to a 64-bit signed one (`time_t`,
`suseconds_t`). -/
def toS64 (x : Nat) : Int :=
  if x < 9223372036854775808 then (x : Int) else (x : Int) - 18446744073709551616

/-- Conversion of an unsigned value to `uint32_t`. -/
def toU32 (x : Nat) : Nat := x % 4294967296

/-- The function `tv2nt` of sntp.c.  The sum `tv_sec + UNIX_EPOCH` is computed in
`unsigned long` and stored in a `uint32_t`; `frac` is a `uint64_t` local. -/
def tv2nt (tv : Timeval) : Ntptime :=
  let frac0 := toU64 tv.tv_usec
  let frac1 := (frac0 * 4294967296) % 18446744073709551616
  let frac2 := frac1 / (1000 * 1000)
  { sec := toU32 (toU64 (tv.tv_sec + (UNIX_EPOCH : Int))),
    frac := toU32 frac2 }

/-- The function `nt2tv` of sntp.c.  The difference `nt->sec - UNIX_EPOCH` is
computed in `unsigned long` and stored in a `time_t`. -/
def nt2tv (nt : Ntptime) : Timeval :=
  let frac0 := nt.frac
  let frac1 := (frac0 * (1000 * 1000)) % 18446744073709551616
  let frac2 := frac1 / 4294967296
  { tv_sec := toS64 (toU64 ((nt.sec : Int) - (UNIX_EPOCH : Int))),
    tv_usec := toS64 frac2 }


/-! ## tod.c: the time-of-day controller -/

/-- The four `long long` fields of `struct tod`, in microseconds. -/
structure Tod where
  last_step : Int
  last_adjust : Int
  low_water : Int
  high_water : Int
deriving DecidableEq, Repr

/-- The constant `DEFAULT_LOW_WATER` of tod.c. -/
def DEFAULT_LOW_WATER : Int := 1000

/-- The constant `DEFAULT_HIGH_WATER` of tod.c. -/
def DEFAULT_HIGH_WATER : Int := 1000000

/-- The function `tod_open` of tod.c; `zalloc` hands out zeroed memory. -/
def tod_open (low_water high_water : Int) : Tod :=
  { last_step := 0, last_adjust := 0,
    low_water := if low_water ≠ 0 then low_water else DEFAULT_LOW_WATER,
    high_water := if high_water ≠ 0 then high_water else DEFAULT_HIGH_WATER }

/-- A call into the host clock made by tod.c, with its argument:
`settimeofday(&tv, NULL)`, `adjtimex(&tx)` with `tx.offset`, `adjtime(&tv, NULL)`. -/
inductive HostCall where
  | settimeofday (tv : Timeval)
  | adjtimex (offset : Int)
  | adjtime (tv : Timeval)
deriving DecidableEq, Repr

/-- What a function of tod.c leaves behind: its return value, the controller
state and the host-clock calls it made, in order. -/
structure Outcome where
  ret : Int
  tod : Tod
  calls : List HostCall
deriving DecidableEq, Repr

/-- Reduction of an exact integer to the value a 64-bit `long long` holds. -/
def wrap64 (x : Int) : Int :=
  (x + 9223372036854775808) % 18446744073709551616 - 9223372036854775808

/-- Addition of two `long long` values. -/
def lladd (a b : Int) : Int := wrap64 (a + b)

/-- Subtraction of two `long long` values. -/
def llsub (a b : Int) : Int := wrap64 (a - b)

/-- Multiplication of two `long long` values. -/
def llmul (a b : Int) : Int := wrap64 (a * b)

/-- Negation of a `long long` value. -/
def llneg (a : Int) : Int := wrap64 (-a)

/-- The function `tod_step` of tod.c.  `ok c` tells whether the host call `c`
succeeds. -/
def tod_step (ok : HostCall → Bool) (tod : Tod) (_lt rt : Int) : Outcome :=
  let tv : Timeval := { tv_sec := Int.tdiv rt 1000000, tv_usec := Int.tmod rt 1000000 }
  if ok (HostCall.settimeofday tv) = false then
    { ret := -1, tod := tod, calls := [HostCall.settimeofday tv] }
  else
    { ret := 0, tod := { tod with last_step := rt, last_adjust := rt },
      calls := [HostCall.settimeofday tv] }

/-- The function `tod_slew` of tod.c.  `haveAdjtimex` is the configuration macro
`HAVE_ADJTIMEX`; without it the `HAVE_ADJTIME` branch is compiled.  The
difference `rt - lt` is a `long long` subtraction. -/
def tod_slew (haveAdjtimex : Bool) (ok : HostCall → Bool) (tod : Tod) (lt rt : Int) :
    Outcome :=
  let dt := llsub rt lt
  if haveAdjtimex then
    if ok (HostCall.adjtimex dt) = false then
      { ret := -1, tod := tod, calls := [HostCall.adjtimex dt] }
    else
      { ret := 0, tod := { tod with last_adjust := rt }, calls := [HostCall.adjtimex dt] }
  else
    let tv : Timeval := { tv_sec := Int.tdiv dt 1000000, tv_usec := Int.tmod dt 1000000 }
    if ok (HostCall.adjtime tv) = false then
      { ret := -1, tod := tod, calls := [HostCall.adjtime tv] }
    else
      { ret := 0, tod := { tod with last_adjust := rt }, calls := [HostCall.adjtime tv] }

/-- The function `tod_set` of tod.c.  `nothing` is the global dry-run flag of
rtcd.c, `ltv` the sample returned by `gettimeofday` (when that call fails the
process ends in `err`), `rtv` the reference time.  `lt`, `rt`, `dt` and `adt`
are `long long`, so the products, sums, the difference and the negation are
64-bit operations.  `CAN_SLEW` is always defined, so the `#ifdef CAN_SLEW`
branch is the one compiled.  The values returned by `tod_step` and `tod_slew`
are dropped and 0 is returned.  The messages printed through `v` and `vv` when
`verbose` is set are left out. -/
def tod_set (haveAdjtimex : Bool) (nothing : Int) (ok : HostCall → Bool) (tod : Tod)
    (ltv rtv : Timeval) : Outcome :=
  let lt := lladd (llmul 1000000 ltv.tv_sec) ltv.tv_usec
  let rt := lladd (llmul 1000000 rtv.tv_sec) rtv.tv_usec
  if tod.last_adjust ≠ 0 ∧ rt < tod.last_adjust then
    { tod_step ok tod lt rt with ret := 0 }
  else
    let dt := llsub rt lt
    if nothing ≠ 0 then
      { ret := 0, tod := tod, calls := [] }
    else
      let adt := if dt < 0 then llneg dt else dt
      if adt < tod.low_water then
        { ret := 0, tod := tod, calls := [] }
      else if adt > tod.high_water then
        { tod_step ok tod lt rt with ret := 0 }
      else
        { tod_slew haveAdjtimex ok tod lt lt with ret := 0 }

/-- The host call is one of the two gradual-adjustment primitives. -/
def HostCall.isSlew : HostCall → Bool
  | HostCall.settimeofday _ => false
  | HostCall.adjtimex _ => true
  | HostCall.adjtime _ => true

/-- The microsecond count `1000000LL * tv.tv_sec + tv.tv_usec` that `tod_set`
forms from a `struct timeval`, a `long long`. -/
def usecOf (tv : Timeval) : Int := lladd (llmul 1000000 tv.tv_sec) tv.tv_usec

/-- The value `adt` that `tod_set` compares with the two marks: the `long long`
difference `dt = rt - lt`, negated when it is negative. -/
def absDelta (ltv rtv : Timeval) : Int :=
  if llsub (usecOf rtv) (usecOf ltv) < 0 then llneg (llsub (usecOf rtv) (usecOf ltv))
  else llsub (usecOf rtv) (usecOf ltv)

/-! ## sntp.c: the protocol engine -/

/-- The two fields of `struct timespec`. -/
structure Timespec where
  tv_sec : Int
  tv_nsec : Int
deriving DecidableEq, Repr

/-- The function `ts2nt` of sntp.c, with the same widths as `tv2nt`. -/
def ts2nt (ts : Timespec) : Ntptime :=
  let frac0 := toU64 ts.tv_nsec
  let frac1 := (frac0 * 4294967296) % 18446744073709551616
  let frac2 := frac1 / (1000 * 1000 * 1000)
  { sec := toU32 (toU64 (ts.tv_sec + (UNIX_EPOCH : Int))),
    frac := toU32 frac2 }

/-- Reversal of the four bytes of a `uint32_t`. -/
def bswap32 (x : Nat) : Nat :=
  x % 256 * 16777216 + x / 256 % 256 * 65536 + x / 65536 % 256 * 256 + x / 16777216 % 256

/-- The library function `htonl`: the identity on a big-endian host, the byte
reversal on a little-endian one. -/
def htonl (bigEndian : Bool) (x : Nat) : Nat := if bigEndian then x else bswap32 x

/-- The library function `ntohl`. -/
def ntohl (bigEndian : Bool) (x : Nat) : Nat := if bigEndian then x else bswap32 x

/-- The function `n2h_ntp` of sntp.c. -/
def n2h_ntp (bigEndian : Bool) (nt : Ntptime) : Ntptime :=
  { sec := ntohl bigEndian nt.sec, frac := ntohl bigEndian nt.frac }

/-- The function `h2n_ntp` of sntp.c. -/
def h2n_ntp (bigEndian : Bool) (nt : Ntptime) : Ntptime :=
  { sec := htonl bigEndian nt.sec, frac := htonl bigEndian nt.frac }

/-- The macro `nt_lt` of sntp.h: `nt_cmp(nt1, <, nt2)`, which is
`(nt1).sec < (nt2).sec && (nt1).frac < (nt2).frac`. -/
def nt_lt (nt1 nt2 : Ntptime) : Bool := decide (nt1.sec < nt2.sec) && decide (nt1.frac < nt2.frac)

/-- The macro `nt_eq` of sntp.h: `nt_cmp(nt1, ==, nt2)`. -/
def nt_eq (nt1 nt2 : Ntptime) : Bool := decide (nt1.sec = nt2.sec) && decide (nt1.frac = nt2.frac)

/-- The enumeration `sntp_err_t` of sntp.h. -/
inductive SntpErr where
  | SNTP_OK
  | SNTP_SYSERR
  | SNTP_DNSERR
  | SNTP_NOREQ
  | SNTP_NORESP
  | SNTP_BADRESP
  | SNTP_LAME
  | SNTP_BACKOFF
deriving DecidableEq, Repr

/-- One entry of a `getaddrinfo` result: the fields sntp.c copies. -/
structure AddrInfo where
  ai_family : Int
  ai_socktype : Int
  ai_protocol : Int
  ai_addr : List Nat
deriving DecidableEq, Repr

/-- The fields of `struct sntp` that change after `sntp_create` (the four
strings set there are never written again).  `laddr` and `raddr` are `none`
for `NULL`; `pfd` is spread over three fields. -/
structure Sntp where
  family : Int
  socktype : Int
  protocol : Int
  laddr : Option (List Nat)
  laddrlen : Nat
  raddr : Option (List Nat)
  raddrlen : Nat
  sd : Int
  pfd_fd : Int
  pfd_events : Nat
  pfd_revents : Nat
  last_send : Ntptime
  last_recv : Ntptime
deriving DecidableEq, Repr

/-- The fields of `struct ntp_msg`, each multi-byte field as the `uint32_t`
value the host reads from the buffer. -/
structure NtpMsg where
  flags : Nat
  stratum : Nat
  poll : Nat
  precision : Nat
  root_delay : Nat
  root_dispersion : Nat
  reference_id : List Nat
  reference : Ntptime
  originate : Ntptime
  receive : Ntptime
  transmit : Ntptime
deriving DecidableEq, Repr

/-- The value of `sizeof(struct ntp_msg)`. -/
def sizeofNtpMsg : Nat := 48

/-- The constant `POLLIN` of poll.h. -/
def POLLIN : Nat := 1

/-- The constant `POLLERR` of poll.h. -/
def POLLERR : Nat := 8

/-- The constant `POLLHUP` of poll.h. -/
def POLLHUP : Nat := 16

/-- The constant `EAGAIN` of errno.h. -/
def EAGAIN : Int := 11

/-- What the host answers while `sntp_open` runs: the first `getaddrinfo`
(`none` for a failure, otherwise the candidates, each with the descriptor
`socket` returns for it, `none` for -1), the head of the second `getaddrinfo`
(`none` for a failure), and whether `bind` and `connect` succeed. -/
structure OpenEnv where
  remote : Option (List (AddrInfo × Option Nat))
  localAddr : Option AddrInfo
  bindOk : Bool
  connectOk : Bool

/-- What `poll` answers: -1, 0, or 1 with the `revents` it stored. -/
inductive PollResult where
  | error
  | timeout
  | ready (revents : Nat)
deriving DecidableEq, Repr

/-- What `recv` answers: -1 with `errno`, or the number of bytes it stored
(0 to `sizeof msg`) with the buffer read as a `struct ntp_msg`. -/
inductive RecvResult where
  | error (errno : Int)
  | got (n : Nat) (msg : NtpMsg)
deriving DecidableEq, Repr

/-- What a function of the protocol engine leaves behind: its return value, the
session, the datagram handed to `send` (if any) and the timestamp stored
through the output pointer (if any). -/
structure SntpOutcome where
  ret : SntpErr
  sntp : Sntp
  sent : Option NtpMsg
  nt : Option Ntptime
deriving DecidableEq, Repr

/-- The function `sntp_close` of sntp.c. -/
def sntp_close (_s : Sntp) : Sntp :=
  { family := 0, socktype := 0, protocol := 0,
    laddr := none, laddrlen := 0, raddr := none, raddrlen := 0,
    sd := -1,
    pfd_fd := 0, pfd_events := 0, pfd_revents := 0,
    last_send := { sec := 0, frac := 0 }, last_recv := { sec := 0, frac := 0 } }

/-- The loop of `sntp_open` over the `getaddrinfo` results: the first candidate
for which `socket` returns a descriptor, with that descriptor. -/
def firstSocket : List (AddrInfo × Option Nat) → Option (AddrInfo × Nat)
  | [] => none
  | (ai, some fd) :: _ => some (ai, fd)
  | (_, none) :: rest => firstSocket rest

/-- The function `sntp_open` of sntp.c: its return value and the session. -/
def sntp_open (env : OpenEnv) (s : Sntp) : SntpErr × Sntp :=
  if s.sd ≠ -1 then (SntpErr.SNTP_OK, s)
  else
    match env.remote with
    | none => (SntpErr.SNTP_DNSERR, s)
    | some aiv =>
      match firstSocket aiv with
      | none => (SntpErr.SNTP_SYSERR, s)
      | some (ai, fd) =>
        let s1 : Sntp :=
          { s with sd := (fd : Int), raddr := some ai.ai_addr, raddrlen := ai.ai_addr.length,
                   family := ai.ai_family, socktype := ai.ai_socktype,
                   protocol := ai.ai_protocol }
        match env.localAddr with
        | none => (SntpErr.SNTP_DNSERR, sntp_close s1)
        | some l =>
          let s2 : Sntp := { s1 with laddr := some l.ai_addr, laddrlen := l.ai_addr.length }
          if env.bindOk = false then (SntpErr.SNTP_SYSERR, sntp_close s2)
          else if env.connectOk = false then (SntpErr.SNTP_SYSERR, sntp_close s2)
          else
            (SntpErr.SNTP_OK,
              { s2 with pfd_fd := s2.sd, pfd_events := POLLIN, pfd_revents := 0 })

/-- The request built by `sntp_send`: `memset` to zero, flags 0x23, and the
transmit timestamp in network order. -/
def requestMsg (bigEndian : Bool) (ts : Timespec) : NtpMsg :=
  { flags := 0x23, stratum := 0, poll := 0, precision := 0,
    root_delay := 0, root_dispersion := 0, reference_id := [0, 0, 0, 0],
    reference := { sec := 0, frac := 0 }, originate := { sec := 0, frac := 0 },
    receive := { sec := 0, frac := 0 },
    transmit := h2n_ntp bigEndian (ts2nt ts) }

/-- The function `sntp_send` of sntp.c.  `clock` is what `clock_gettime`
stores (`none` when it fails), `sendRet` the value `send` returns. -/
def sntp_send (bigEndian : Bool) (env : OpenEnv) (clock : Option Timespec) (sendRet : Int)
    (s : Sntp) : SntpOutcome :=
  match sntp_open env s with
  | (SntpErr.SNTP_OK, s1) =>
    match clock with
    | none => { ret := SntpErr.SNTP_SYSERR, sntp := s1, sent := none, nt := none }
    | some ts =>
      let msg := requestMsg bigEndian ts
      if sendRet < 0 then
        { ret := SntpErr.SNTP_SYSERR, sntp := s1, sent := some msg, nt := none }
      else
        { ret := SntpErr.SNTP_OK, sntp := { s1 with last_send := ts2nt ts },
          sent := some msg, nt := none }
  | (se, s1) => { ret := se, sntp := s1, sent := none, nt := none }

/-- The function `sntp_pending` of sntp.c. -/
def sntp_pending (s : Sntp) : SntpErr :=
  if s.sd = -1 then SntpErr.SNTP_NOREQ
  else if nt_lt s.last_send s.last_recv then SntpErr.SNTP_NOREQ
  else SntpErr.SNTP_OK

/-- The function `sntp_poll` of sntp.c.  `poll` is asked about one descriptor,
so it returns -1, 0 or 1; with 1 it has stored `revents` in `pfd`. -/
def sntp_poll (pr : PollResult) (s : Sntp) : SntpOutcome :=
  if sntp_pending s ≠ SntpErr.SNTP_OK then
    { ret := sntp_pending s, sntp := s, sent := none, nt := none }
  else
    match pr with
    | PollResult.error =>
      { ret := SntpErr.SNTP_SYSERR, sntp := sntp_close s, sent := none, nt := none }
    | PollResult.timeout =>
      { ret := SntpErr.SNTP_NORESP, sntp := { s with pfd_revents := 0 }, sent := none,
        nt := none }
    | PollResult.ready revents =>
      let s1 : Sntp := { s with pfd_revents := revents }
      if revents &&& (POLLERR ||| POLLHUP) ≠ 0 then
        { ret := SntpErr.SNTP_SYSERR, sntp := sntp_close s1, sent := none, nt := none }
      else
        { ret := SntpErr.SNTP_OK, sntp := s1, sent := none, nt := none }

/-- The function `sntp_recv` of sntp.c.  `rr` is what `recv` answers, `clock`
what `clock_gettime` stores (`none` when it fails). -/
def sntp_recv (bigEndian : Bool) (rr : RecvResult) (clock : Option Timespec) (s : Sntp) :
    SntpOutcome :=
  if sntp_pending s ≠ SntpErr.SNTP_OK then
    { ret := sntp_pending s, sntp := s, sent := none, nt := none }
  else
    match rr with
    | RecvResult.error errno =>
      if errno = EAGAIN then
        { ret := SntpErr.SNTP_NORESP, sntp := s, sent := none, nt := none }
      else
        { ret := SntpErr.SNTP_SYSERR, sntp := sntp_close s, sent := none, nt := none }
    | RecvResult.got n msg0 =>
      if n = 0 then { ret := SntpErr.SNTP_NORESP, sntp := s, sent := none, nt := none }
      else if n ≠ sizeofNtpMsg then
        { ret := SntpErr.SNTP_BADRESP, sntp := s, sent := none, nt := none }
      else
        match clock with
        | none => { ret := SntpErr.SNTP_SYSERR, sntp := s, sent := none, nt := none }
        | some ts =>
          let msg : NtpMsg :=
            { msg0 with originate := n2h_ntp bigEndian msg0.originate,
                        receive := n2h_ntp bigEndian msg0.receive,
                        transmit := n2h_ntp bigEndian msg0.transmit }
          if msg.flags = 0xe4 ∧ msg.stratum = 0 then
            { ret := SntpErr.SNTP_BACKOFF, sntp := s, sent := none, nt := none }
          else if msg.flags = 0x23 then
            { ret := SntpErr.SNTP_BADRESP, sntp := s, sent := none, nt := none }
          else if msg.flags = 0x24 ∨ msg.flags = 0x64 ∨ msg.flags = 0xa4 then
            if nt_eq msg.originate s.last_send = false then
              { ret := SntpErr.SNTP_NORESP, sntp := s, sent := none, nt := none }
            else
              { ret := SntpErr.SNTP_OK, sntp := { s with last_recv := ts2nt ts },
                sent := none, nt := some msg.transmit }
          else if msg.flags = 0xe4 then
            { ret := SntpErr.SNTP_LAME, sntp := s, sent := none, nt := none }
          else
            { ret := SntpErr.SNTP_BADRESP, sntp := s, sent := none, nt := none }

/-! ## rtcd.c: validation of the thresholds -/

/-- The three tests of `main` that end in `usage()` for the thresholds:
`tod_high_water < 0`, `tod_low_water < 0`, `tod_low_water > tod_high_water`;
a value of 0 is the initial value of an option that was not given.  The pair
is accepted when none of them fires. -/
def mainAcceptsThresholds (low high : Int) : Bool :=
  !(decide (high < 0)) && !(decide (low < 0)) && !(decide (low > high))

/-- The 64-bit fixed-point value of an NTP timestamp, `sec * 2^32 + frac`. -/
def ntValue (nt : Ntptime) : Nat := nt.sec * 4294967296 + nt.frac

/-- A session as `sntp_open` leaves it on an IPv4 UDP socket with descriptor 3,
with the given two timestamps; used to state examples. -/
def openSession (last_send last_recv : Ntptime) : Sntp :=
  { family := 2, socktype := 2, protocol := 17,
    laddr := some [2, 0, 0, 123, 0, 0, 0, 0], laddrlen := 8,
    raddr := some [2, 0, 0, 123, 192, 0, 2, 1], raddrlen := 8,
    sd := 3, pfd_fd := 3, pfd_events := POLLIN, pfd_revents := 0,
    last_send := last_send, last_recv := last_recv }

/-- A host on which every step of `sntp_open` fails; `sntp_open` does not
consult it for a session that is already open.  Used to state examples. -/
def noHost : OpenEnv :=
  { remote := none, localAddr := none, bindOk := false, connectOk := false }

/-- A server reply with flags 0x24 and stratum 2 that carries the given
originate and transmit fields (as stored in the buffer); used to state
examples. -/
def replyMsg (originate transmit : Ntptime) : NtpMsg :=
  { flags := 0x24, stratum := 2, poll := 0, precision := 0, root_delay := 0,
    root_dispersion := 0, reference_id := [0, 0, 0, 0],
    reference := { sec := 0, frac := 0 }, originate := originate,
    receive := { sec := 0, frac := 0 }, transmit := transmit }

/-! ## sntp.h: the remaining comparison macros -/

/-- The macro `nt_le` of sntp.h: `nt_cmp(nt1, <=, nt2)`. -/
def nt_le (nt1 nt2 : Ntptime) : Bool := decide (nt1.sec ≤ nt2.sec) && decide (nt1.frac ≤ nt2.frac)

/-- The macro `nt_ge` of sntp.h: `nt_cmp(nt1, >=, nt2)`. -/
def nt_ge (nt1 nt2 : Ntptime) : Bool := decide (nt1.sec ≥ nt2.sec) && decide (nt1.frac ≥ nt2.frac)

/-- The macro `nt_gt` of sntp.h: `nt_cmp(nt1, >, nt2)`. -/
def nt_gt (nt1 nt2 : Ntptime) : Bool := decide (nt1.sec > nt2.sec) && decide (nt1.frac > nt2.frac)

/-! ## sntp.c: the datagram on the wire -/

/-- The four bytes of a `uint32_t` in the order the host keeps them in memory. -/
def memBytes32 (bigEndian : Bool) (v : Nat) : List Nat :=
  if bigEndian then [v / 16777216 % 256, v / 65536 % 256, v / 256 % 256, v % 256]
  else [v % 256, v / 256 % 256, v / 65536 % 256, v / 16777216 % 256]

/-- The four bytes of a 32-bit value, most significant first. -/
def beBytes32 (v : Nat) : List Nat :=
  [v / 16777216 % 256, v / 65536 % 256, v / 256 % 256, v % 256]

/-- The eight bytes of a `struct ntptime` in memory. -/
def memBytesNt (bigEndian : Bool) (nt : Ntptime) : List Nat :=
  memBytes32 bigEndian nt.sec ++ memBytes32 bigEndian nt.frac

/-- The bytes of a `struct ntp_msg` in memory, which `send(sd, &msg, sizeof msg, 0)`
puts on the wire: four single bytes, then 4-byte fields without padding. -/
def msgBytes (bigEndian : Bool) (m : NtpMsg) : List Nat :=
  [m.flags, m.stratum, m.poll, m.precision]
    ++ memBytes32 bigEndian m.root_delay
    ++ memBytes32 bigEndian m.root_dispersion
    ++ m.reference_id
    ++ memBytesNt bigEndian m.reference
    ++ memBytesNt bigEndian m.originate
    ++ memBytesNt bigEndian m.receive
    ++ memBytesNt bigEndian m.transmit

/-- The call `recv(sd, &msg, sizeof msg, MSG_DONTWAIT)` on a waiting datagram of
`len` bytes: `recv` stores at most `sizeof msg` bytes, drops the rest of the
datagram, and returns the number of bytes stored; `msg` is the buffer
afterwards. -/
def recvDatagram (len : Nat) (msg : NtpMsg) : RecvResult :=
  RecvResult.got (min len sizeofNtpMsg) msg

/-! ## rtc.c: overflow of the sum, reading the device -/

/-- An `int` operation that reports overflow: the exact result when it fits in
32 bits, `none` otherwise or when an operand is already `none`. -/
def ckInt (x : Option Int) : Option Int :=
  match x with
  | none => none
  | some v => if -2147483648 ≤ v ∧ v ≤ 2147483647 then some v else none

/-- Checked addition of two `int` values. -/
def ckAdd (a b : Option Int) : Option Int :=
  match a, b with
  | some x, some y => ckInt (some (x + y))
  | _, _ => none

/-- Checked subtraction of two `int` values. -/
def ckSub (a b : Option Int) : Option Int :=
  match a, b with
  | some x, some y => ckInt (some (x - y))
  | _, _ => none

/-- Checked multiplication of two `int` values. -/
def ckMul (a b : Option Int) : Option Int :=
  match a, b with
  | some x, some y => ckInt (some (x * y))
  | _, _ => none

/-- Checked division of two `int` values. -/
def ckDiv (a b : Option Int) : Option Int :=
  match a, b with
  | some x, some y => ckInt (some (Int.tdiv x y))
  | _, _ => none

/-- The sum of `tm2tv` evaluated operation by operation in `int`, in the order
of the source: the value of `tv_sec` when no intermediate result leaves the
`int` range, `none` as soon as one does. -/
def tm2tvChecked (tm : Tm) : Option Int :=
  ckAdd
    (ckSub
      (ckAdd
        (ckAdd
          (ckAdd
            (ckAdd
              (ckAdd (some tm.tm_sec) (ckMul (some tm.tm_min) (some 60)))
              (ckMul (some tm.tm_hour) (some 3600)))
            (ckMul (some tm.tm_yday) (some 86400)))
          (ckMul (ckSub (some tm.tm_year) (some 70)) (some 31536000)))
        (ckMul (ckDiv (ckSub (some tm.tm_year) (some 69)) (some 4)) (some 86400)))
      (ckMul (ckDiv (ckSub (some tm.tm_year) (some 1)) (some 100)) (some 86400)))
    (ckMul (ckDiv (ckAdd (some tm.tm_year) (some 299)) (some 400)) (some 86400))

/-- The function `rtc_get` of rtc.c.  `reading` is what `ioctl(RTC_RD_TIME)`
stores (`none` when it fails); the result is `none` for the return value -1. -/
def rtc_get (reading : Option Tm) : Option Timeval :=
  match reading with
  | none => none
  | some tm => some (tm2tv tm)

/-! ## rtcd.c: the option loop of `main` -/

/-- The file-scope variables of rtcd.c that the option loop and the argument
handling of `main` assign; a `const char *` is `none` for `NULL`. -/
structure Config where
  sntp_dstaddr : Option String
  sntp_dstport : Option String
  sntp_srcaddr : Option String
  sntp_srcport : Option String
  sntp_timeout : Int
  init_from_rtc : Int
  quit_after_init : Int
  tod_low_water : Int
  tod_high_water : Int
  rtc_device : Option String
  nothing : Int
  verbose : Int
deriving DecidableEq, Repr

/-- The initial values of those variables. -/
def initialConfig : Config :=
  { sntp_dstaddr := none, sntp_dstport := none, sntp_srcaddr := none, sntp_srcport := none,
    sntp_timeout := 16000, init_from_rtc := 0, quit_after_init := 0,
    tod_low_water := 0, tod_high_water := 0, rtc_device := some "/dev/rtc0",
    nothing := 0, verbose := 0 }

/-- One round of the `while ((opt = getopt(...)) != -1) switch (opt)` loop of
`main`, for the option character `opt` with argument `optarg`.  `ll_optarg`
gives the value of the function `ll_optarg` on an argument, `none` when it ends
in `usage()`.  The result is `none` when the round ends in `usage()`, which
exits.  `case 'a'` has no `break`, so control runs on into `case 'd'`. -/
def mainOption (ll_optarg : String → Option Int) (opt : Char) (optarg : String)
    (c : Config) : Option Config :=
  if opt = 'a' then
    let c1 : Config := { c with sntp_srcaddr := some optarg }
    some { c1 with rtc_device := some optarg }
  else if opt = 'd' then
    some { c with rtc_device := some optarg }
  else if opt = 'h' then
    match ll_optarg optarg with
    | none => none
    | some v => if v < 0 then none else some { c with tod_high_water := v }
  else if opt = 'i' then
    some { c with init_from_rtc := c.init_from_rtc + 1 }
  else if opt = 'l' then
    match ll_optarg optarg with
    | none => none
    | some v => if v < 0 then none else some { c with tod_low_water := v }
  else if opt = 'n' then
    some { c with nothing := c.nothing + 1 }
  else if opt = 'p' then
    some { c with sntp_dstport := some optarg }
  else if opt = 'q' then
    some { c with quit_after_init := c.quit_after_init + 1 }
  else if opt = 's' then
    some { c with sntp_srcport := some optarg }
  else if opt = 'v' then
    some { c with verbose := c.verbose + 1 }
  else
    none

/-- The whole option loop of `main` over the options `getopt` hands out, each
with its argument (the empty string for an option without one). -/
def mainOptions (ll_optarg : String → Option Int) :
    List (Char × String) → Config → Option Config
  | [], c => some c
  | (opt, optarg) :: rest, c =>
    match mainOption ll_optarg opt optarg c with
    | none => none
    | some c1 => mainOptions ll_optarg rest c1

/-! ## Lemmas on the calendar -/

theorem wrap32_id {x : Int} (h1 : -2147483648 ≤ x) (h2 : x ≤ 2147483647) :
    wrap32 x = x := by
  unfold wrap32; omega

/-- C's `%` and the mathematical remainder vanish together. -/
theorem tmod_eq_zero_iff (y k : Int) : Int.tmod y k = 0 ↔ y % k = 0 :=
  ⟨fun h => Int.emod_eq_zero_of_dvd (Int.dvd_of_tmod_eq_zero h),
   fun h => Int.tmod_eq_zero_of_dvd (Int.dvd_of_emod_eq_zero h)⟩

theorem leapFlag_eq (y : Int) :
    leapFlag y = if isLeapYear y then 1 else 0 := by
  unfold leapFlag isLeapYear
  simp only [tmod_eq_zero_iff, ne_eq]

theorem yearLength_eq (y : Int) : yearLength y = 365 + leapFlag y := by
  rw [leapFlag_eq y]; unfold yearLength; split_ifs <;> rfl

theorem yearLength_bounds (y : Int) : 365 ≤ yearLength y ∧ yearLength y ≤ 366 := by
  unfold yearLength; split_ifs <;> omega

theorem daysToYear_mono {a b : Nat} (h : a ≤ b) : daysToYear a ≤ daysToYear b := by
  induction b with
  | zero =>
    have : a = 0 := by omega
    subst this; exact le_refl _
  | succ n ih =>
    rcases Nat.lt_or_ge a (n + 1) with h1 | h1
    · have := ih (by omega)
      have hb := yearLength_bounds (1970 + (n : Int))
      simp only [daysToYear]; omega
    · have : a = n + 1 := by omega
      subst this; exact le_refl _

theorem daysToYear_nonneg (k : Nat) : 0 ≤ daysToYear k := by
  have := daysToYear_mono (Nat.zero_le k)
  simpa [daysToYear] using this

/-- Closed form of `daysToYear`, the day count used by `tm2tv`. -/
theorem daysToYear_closed (k : Nat) :
    daysToYear k =
      365 * (k : Int) + ((k : Int) + 1) / 4 - ((k : Int) + 69) / 100 + ((k : Int) + 369) / 400 := by
  induction k with
  | zero => simp [daysToYear]
  | succ n ih =>
    simp only [daysToYear, ih, yearLength, isLeapYear]
    push_cast
    split_ifs with h <;> omega


theorem daysToYear_succ (k : Nat) :
    daysToYear (k + 1) = daysToYear k + yearLength (1970 + (k : Int)) := rfl

theorem daysToYear_unique {a b : Nat} {r s : Int}
    (hr : 0 ≤ r) (hr' : r < yearLength (1970 + (a : Int)))
    (hs : 0 ≤ s) (hs' : s < yearLength (1970 + (b : Int)))
    (h : daysToYear a + r = daysToYear b + s) : a = b ∧ r = s := by
  rcases Nat.lt_trichotomy a b with hab | hab | hab
  · have h1 := daysToYear_mono (show a + 1 ≤ b by omega)
    rw [daysToYear_succ] at h1
    omega
  · subst hab
    exact ⟨rfl, by omega⟩
  · have h1 := daysToYear_mono (show b + 1 ≤ a by omega)
    rw [daysToYear_succ] at h1
    omega

/-- Days from 1 January 1970 to 1 January 2147483648, the first year the `int`
year counter of `tv2tm` cannot hold. -/
theorem daysToYear_max : daysToYear 2147481678 = 784351576777 := by
  rw [daysToYear_closed]; norm_num

/-- The year loop leaves through its `break` for every non-negative day count,
whatever values the year counter takes. -/
theorem yearLoop_total (fuel : Nat) :
    ∀ (t y : Int), 0 ≤ t → t < fuel →
      ∃ (r y' : Int),
        yearLoop fuel t y = some (r, y', leapFlag y') ∧ 0 ≤ r ∧ r < yearLength y' := by
  induction fuel with
  | zero => intro t y h0 h1; simp at h1; omega
  | succ f ih =>
    intro t y h0 h1
    have hy := yearLength_eq y
    have hb := yearLength_bounds y
    by_cases hlt : t < 365 + leapFlag y
    · exact ⟨t, y, by simp [yearLoop, hlt], h0, by omega⟩
    · push_cast at h1
      obtain ⟨r, y', e, hr0, hr1⟩ :=
        ih (t - (365 + leapFlag y)) (iadd y 1) (by omega) (by omega)
      refine ⟨r, y', ?_, hr0, hr1⟩
      simp only [yearLoop, hlt, if_false]
      exact e

/-- The year loop on day counts before 1 January 2147483648: the year counter
stays within `int` and the loop finds the year of the day. -/
theorem yearLoop_spec (fuel : Nat) :
    ∀ (t : Int) (n : Nat), 0 ≤ t → t < fuel → t + daysToYear n < 784351576777 →
      ∃ (n' : Nat) (r : Int),
        yearLoop fuel t (1970 + (n : Int))
            = some (r, 1970 + (n' : Int), leapFlag (1970 + (n' : Int))) ∧
          0 ≤ r ∧ r < yearLength (1970 + (n' : Int)) ∧
          t + daysToYear n = daysToYear n' + r ∧ n' < 2147481678 := by
  induction fuel with
  | zero => intro t n h0 h1; simp at h1; omega
  | succ f ih =>
    intro t n h0 h1 hmax
    have hy : yearLength (1970 + (n : Int)) = 365 + leapFlag (1970 + (n : Int)) :=
      yearLength_eq _
    have hb := yearLength_bounds (1970 + (n : Int))
    by_cases hlt : t < 365 + leapFlag (1970 + (n : Int))
    · have hn : n < 2147481678 := by
        by_contra hc
        have := daysToYear_mono (show 2147481678 ≤ n by omega)
        rw [daysToYear_max] at this
        omega
      refine ⟨n, t, ?_, h0, by omega, by omega, hn⟩
      simp [yearLoop, hlt]
    · push_cast at h1
      have hn : n + 1 < 2147481678 := by
        by_contra hc
        have := daysToYear_mono (show 2147481678 ≤ n + 1 by omega)
        rw [daysToYear_max, daysToYear_succ] at this
        omega
      have hw : iadd (1970 + (n : Int)) 1 = 1970 + ((n + 1 : Nat) : Int) := by
        unfold iadd; rw [wrap32_id (by omega) (by omega)]; push_cast; ring
      obtain ⟨n', r, e, hr0, hr1, hsum, hn'⟩ :=
        ih (t - (365 + leapFlag (1970 + (n : Int)))) (n + 1) (by omega) (by omega)
          (by rw [daysToYear_succ]; omega)
      refine ⟨n', r, ?_, hr0, hr1, ?_, hn'⟩
      · simp only [yearLoop, hlt, if_false]
        rw [hw]; exact e
      · rw [daysToYear_succ] at hsum; omega

/-- The year loop passes `k` whole years in `k` rounds, as long as the year
counter stays within `int`. -/
theorem yearLoop_skip (k : Nat) :
    ∀ (fuel : Nat) (t : Int) (n : Nat), n + k < 2147481678 → 0 ≤ t →
      yearLoop (fuel + k) (t + (daysToYear (n + k) - daysToYear n)) (1970 + (n : Int))
        = yearLoop fuel t (1970 + ((n + k : Nat) : Int)) := by
  induction k with
  | zero => intro fuel t n _ _; simp
  | succ k ih =>
    intro fuel t n hn h0
    have hy : yearLength (1970 + (n : Int)) = 365 + leapFlag (1970 + (n : Int)) :=
      yearLength_eq _
    have hm := daysToYear_mono (show n + 1 ≤ n + (k + 1) by omega)
    rw [daysToYear_succ] at hm
    have hlt : ¬ (t + (daysToYear (n + (k + 1)) - daysToYear n)
        < 365 + leapFlag (1970 + (n : Int))) := by omega
    have hw : iadd (1970 + (n : Int)) 1 = 1970 + ((n + 1 : Nat) : Int) := by
      unfold iadd; rw [wrap32_id (by omega) (by omega)]; push_cast; ring
    have e := ih fuel t (n + 1) (by omega) h0
    have hf : fuel + (k + 1) = (fuel + k) + 1 := by omega
    have hk : n + 1 + k = n + (k + 1) := by omega
    have harg : t + (daysToYear (n + (k + 1)) - daysToYear n)
        - (365 + leapFlag (1970 + (n : Int)))
        = t + (daysToYear (n + 1 + k) - daysToYear (n + 1)) := by
      rw [daysToYear_succ n, hk]; omega
    rw [hf]
    simp only [yearLoop, hlt, if_false]
    rw [hw, harg, e, hk]

theorem monthLength_nonneg (y : Int) (m : Nat) : 0 ≤ monthLength y m := by
  unfold monthLength; split <;> (try split_ifs) <;> omega

theorem daysToMonth_succ (y : Int) (m : Nat) :
    daysToMonth y (m + 1) = daysToMonth y m + monthLength y m := rfl

theorem daysToMonth_mono (y : Int) {a b : Nat} (h : a ≤ b) :
    daysToMonth y a ≤ daysToMonth y b := by
  induction b with
  | zero =>
    have : a = 0 := by omega
    subst this; exact le_refl _
  | succ n ih =>
    rcases Nat.lt_or_ge a (n + 1) with h1 | h1
    · have := ih (by omega)
      have hb := monthLength_nonneg y n
      rw [daysToMonth_succ]; omega
    · have : a = n + 1 := by omega
      subst this; exact le_refl _

theorem daysToMonth_unique (y : Int) {a b : Nat} {r s : Int}
    (hr : 0 ≤ r) (hr' : r < monthLength y a)
    (hs : 0 ≤ s) (hs' : s < monthLength y b)
    (h : daysToMonth y a + r = daysToMonth y b + s) : a = b ∧ r = s := by
  rcases Nat.lt_trichotomy a b with hab | hab | hab
  · have h1 := daysToMonth_mono y (show a + 1 ≤ b by omega)
    rw [daysToMonth_succ] at h1
    omega
  · subst hab
    exact ⟨rfl, by omega⟩
  · have h1 := daysToMonth_mono y (show b + 1 ≤ a by omega)
    rw [daysToMonth_succ] at h1
    omega

theorem daysToMonth_twelve (y : Int) : daysToMonth y 12 = yearLength y := by
  simp only [daysToMonth, monthLength, yearLength]
  split_ifs <;> rfl




theorem mdays_get (y : Int) (m : Nat) (hm : m ≤ 11) :
    mdays[m]? = some (monthLength y m - (if isLeapYear y ∧ m = 1 then 1 else 0)) := by
  interval_cases m <;> simp [mdays, monthLength]
  split_ifs <;> rfl

theorem monthLoop_step (y : Int) (f : Nat) (t : Int) (m : Nat) (hm : m ≤ 11) :
    monthLoop (if isLeapYear y then 1 else 0) (f + 1) t m =
      if t < monthLength y m then some (t, m)
      else monthLoop (if isLeapYear y then 1 else 0) f (t - monthLength y m) (m + 1) := by
  have e : (monthLength y m - (if isLeapYear y ∧ m = 1 then 1 else 0))
      + (if (if isLeapYear y then (1 : Int) else 0) ≠ 0 ∧ m = 1 then 1 else 0)
        = monthLength y m := by
    by_cases h1 : isLeapYear y <;> by_cases h2 : m = 1 <;> simp [h1, h2]
  rw [monthLoop, mdays_get y m hm]
  simp only [e]

theorem monthLoop_from (y : Int) (k : Nat) :
    ∀ (fuel m : Nat) (t : Int), m + k = 12 → k < fuel → 0 ≤ t →
      t + daysToMonth y m < daysToMonth y 12 →
      ∃ (m' : Nat) (r : Int),
        monthLoop (if isLeapYear y then 1 else 0) fuel t m = some (r, m') ∧ m' ≤ 11 ∧
          0 ≤ r ∧ r < monthLength y m' ∧ t + daysToMonth y m = daysToMonth y m' + r := by
  induction k with
  | zero =>
    intro fuel m t hm _ h0 h1
    have : m = 12 := by omega
    subst this; omega
  | succ k ih =>
    intro fuel m t hm hf h0 h1
    obtain ⟨f, rfl⟩ : ∃ f, fuel = f + 1 := ⟨fuel - 1, by omega⟩
    rw [monthLoop_step y f t m (by omega)]
    by_cases hlt : t < monthLength y m
    · exact ⟨m, t, by simp [hlt], by omega, h0, hlt, by omega⟩
    · obtain ⟨m', r, e, hm', hr0, hr1, hsum⟩ :=
        ih f (m + 1) (t - monthLength y m) (by omega) (by omega) (by omega)
          (by rw [daysToMonth_succ]; omega)
      refine ⟨m', r, ?_, hm', hr0, hr1, ?_⟩
      · simp only [hlt, if_false]; exact e
      · rw [daysToMonth_succ] at hsum; omega

theorem monthLoop_spec (y t : Int) (h0 : 0 ≤ t) (h1 : t < yearLength y) :
    ∃ (m : Nat) (r : Int),
      monthLoop (if isLeapYear y then 1 else 0) 13 t 0 = some (r, m) ∧ m ≤ 11 ∧
        0 ≤ r ∧ r < monthLength y m ∧ t = daysToMonth y m + r := by
  obtain ⟨m, r, e, hm, hr0, hr1, hsum⟩ :=
    monthLoop_from y 12 13 0 t (by omega) (by omega) h0
      (by rw [daysToMonth_twelve]; simpa [daysToMonth] using h1)
  exact ⟨m, r, e, hm, hr0, hr1, by simpa [daysToMonth] using hsum⟩


/-- What `tv2tm` returns for every non-negative second count, whatever values
the year counter takes: the loops end, the time of day and the weekday are those
of the instant, and the month and the day lie within the year `y` the loop
stopped at (`tm_year` is `y - 1900` as an `int`). -/
theorem tv2tm_total (tv : Timeval) (h : 0 ≤ tv.tv_sec) :
    ∃ (tm : Tm) (y : Int) (m : Nat), tv2tm tv = some tm ∧
      tm.tm_sec = tv.tv_sec % 60 ∧ tm.tm_min = tv.tv_sec / 60 % 60 ∧
      tm.tm_hour = tv.tv_sec / 60 / 60 % 24 ∧
      tm.tm_wday = (tv.tv_sec / 86400 + 4) % 7 ∧
      tm.tm_year = isub y 1900 ∧ tm.tm_mon = (m : Int) ∧ m ≤ 11 ∧
      0 ≤ tm.tm_yday ∧ tm.tm_yday < yearLength y ∧
      1 ≤ tm.tm_mday ∧ tm.tm_mday ≤ monthLength y m ∧
      tm.tm_yday = daysToMonth y m + (tm.tm_mday - 1) ∧ tm.tm_isdst = 0 := by
  have q1 : Int.tdiv tv.tv_sec 60 = tv.tv_sec / 60 := Int.tdiv_eq_ediv h (by norm_num)
  have q2 : Int.tdiv (tv.tv_sec / 60) 60 = tv.tv_sec / 60 / 60 :=
    Int.tdiv_eq_ediv (by omega) (by norm_num)
  have q3 : Int.tdiv (tv.tv_sec / 60 / 60) 24 = tv.tv_sec / 60 / 60 / 24 :=
    Int.tdiv_eq_ediv (by omega) (by norm_num)
  have r1 : Int.tmod tv.tv_sec 60 = tv.tv_sec % 60 := Int.tmod_eq_emod h (by norm_num)
  have r2 : Int.tmod (tv.tv_sec / 60) 60 = tv.tv_sec / 60 % 60 :=
    Int.tmod_eq_emod (by omega) (by norm_num)
  have r3 : Int.tmod (tv.tv_sec / 60 / 60) 24 = tv.tv_sec / 60 / 60 % 24 :=
    Int.tmod_eq_emod (by omega) (by norm_num)
  have r4 : Int.tmod (tv.tv_sec / 60 / 60 / 24 + 4) 7 = (tv.tv_sec / 60 / 60 / 24 + 4) % 7 :=
    Int.tmod_eq_emod (by omega) (by norm_num)
  obtain ⟨r, y, e, hr0, hr1⟩ :=
    yearLoop_total ((tv.tv_sec / 60 / 60 / 24).toNat + 1) (tv.tv_sec / 60 / 60 / 24) 1970
      (by omega) (by omega)
  obtain ⟨m, d, e', hm, hd0, hd1, hsum'⟩ := monthLoop_spec y r hr0 hr1
  rw [← leapFlag_eq] at e'
  refine ⟨{ tm_sec := tv.tv_sec % 60, tm_min := tv.tv_sec / 60 % 60,
             tm_hour := tv.tv_sec / 60 / 60 % 24, tm_mday := d + 1, tm_mon := (m : Int),
             tm_year := isub y 1900,
             tm_wday := (tv.tv_sec / 60 / 60 / 24 + 4) % 7, tm_yday := r,
             tm_isdst := 0 }, y, m, ?_, rfl, rfl, rfl, ?_, rfl, rfl, hm, hr0, hr1, ?_, ?_, ?_,
             rfl⟩
  · simp only [tv2tm, q1, q2, q3, r1, r2, r3, r4, e, e']
  · simp only []
    omega
  · simp only []
    omega
  · simp only []
    omega
  · simp only []
    omega

/-- What `tv2tm` returns for a second count before 1 January 2147483648: the
valid civil time of that instant. -/
theorem tv2tm_spec (tv : Timeval) (h : 0 ≤ tv.tv_sec) (hmax : tv.tv_sec < 67767976233532800) :
    ∃ tm, tv2tm tv = some tm ∧ ValidCivil tm ∧ epochSeconds tm = tv.tv_sec ∧
      tm.tm_wday = (tv.tv_sec / 86400 + 4) % 7 := by
  have q1 : Int.tdiv tv.tv_sec 60 = tv.tv_sec / 60 := Int.tdiv_eq_ediv h (by norm_num)
  have q2 : Int.tdiv (tv.tv_sec / 60) 60 = tv.tv_sec / 60 / 60 :=
    Int.tdiv_eq_ediv (by omega) (by norm_num)
  have q3 : Int.tdiv (tv.tv_sec / 60 / 60) 24 = tv.tv_sec / 60 / 60 / 24 :=
    Int.tdiv_eq_ediv (by omega) (by norm_num)
  have r1 : Int.tmod tv.tv_sec 60 = tv.tv_sec % 60 := Int.tmod_eq_emod h (by norm_num)
  have r2 : Int.tmod (tv.tv_sec / 60) 60 = tv.tv_sec / 60 % 60 :=
    Int.tmod_eq_emod (by omega) (by norm_num)
  have r3 : Int.tmod (tv.tv_sec / 60 / 60) 24 = tv.tv_sec / 60 / 60 % 24 :=
    Int.tmod_eq_emod (by omega) (by norm_num)
  have r4 : Int.tmod (tv.tv_sec / 60 / 60 / 24 + 4) 7 = (tv.tv_sec / 60 / 60 / 24 + 4) % 7 :=
    Int.tmod_eq_emod (by omega) (by norm_num)
  obtain ⟨n, r, e, hr0, hr1, hsum, hn⟩ :=
    yearLoop_spec ((tv.tv_sec / 60 / 60 / 24).toNat + 1) (tv.tv_sec / 60 / 60 / 24) 0
      (by omega) (by omega) (by simp only [daysToYear]; omega)
  obtain ⟨m, d, e', hm, hd0, hd1, hsum'⟩ := monthLoop_spec (1970 + (n : Int)) r hr0 hr1
  rw [← leapFlag_eq] at e'
  simp only [Nat.cast_zero, add_zero] at e
  simp only [daysToYear, add_zero] at hsum
  have hw : isub (1970 + (n : Int)) 1900 = 1970 + (n : Int) - 1900 := by
    unfold isub; exact wrap32_id (by omega) (by omega)
  have hy : (1970 + (n : Int) - 1900 - 70).toNat = n := by omega
  have hy' : (1970 + (n : Int) - 1900 + 1900) = 1970 + (n : Int) := by omega
  refine ⟨{ tm_sec := tv.tv_sec % 60, tm_min := tv.tv_sec / 60 % 60,
             tm_hour := tv.tv_sec / 60 / 60 % 24, tm_mday := d + 1, tm_mon := (m : Int),
             tm_year := 1970 + (n : Int) - 1900,
             tm_wday := (tv.tv_sec / 60 / 60 / 24 + 4) % 7, tm_yday := r,
             tm_isdst := 0 }, ?_, ?_, ?_, ?_⟩
  · simp only [tv2tm, q1, q2, q3, r1, r2, r3, r4, e, e', hw]
  · simp only [ValidCivil, daysFromEpoch, hy, hy', Int.toNat_ofNat]
    refine ⟨by omega, by omega, by omega, by omega, by omega, by omega, by omega, by omega,
      by omega, by omega, by omega, by omega, by omega, trivial⟩
  · simp only [epochSeconds, daysFromEpoch, hy, hy', Int.toNat_ofNat]
    omega
  · simp only []
    omega


theorem daysToMonth_nonneg (y : Int) (m : Nat) : 0 ≤ daysToMonth y m := by
  have := daysToMonth_mono y (Nat.zero_le m)
  simpa [daysToMonth] using this

/-- The day of the year of a valid civil time lies inside its year. -/
theorem yday_range (c : Tm) (hc : ValidCivil c) :
    0 ≤ c.tm_yday ∧ c.tm_yday < yearLength (c.tm_year + 1900) := by
  obtain ⟨_, hm0, hm1, hd0, hd1, _, _, _, _, _, _, hyd, _, _⟩ := hc
  have h1 := daysToMonth_nonneg (c.tm_year + 1900) c.tm_mon.toNat
  have h2 := daysToMonth_mono (c.tm_year + 1900) (show c.tm_mon.toNat + 1 ≤ 12 by omega)
  rw [daysToMonth_succ, daysToMonth_twelve] at h2
  omega

theorem epochSeconds_inj (a b : Tm) (ha : ValidCivil a) (hb : ValidCivil b)
    (h : epochSeconds a = epochSeconds b) : a = b := by
  have ya := yday_range a ha
  have yb := yday_range b hb
  obtain ⟨ha1, ha2, ha3, ha4, ha5, ha6, ha7, ha8, ha9, ha10, ha11, ha12, ha13, ha14⟩ := ha
  obtain ⟨hb1, hb2, hb3, hb4, hb5, hb6, hb7, hb8, hb9, hb10, hb11, hb12, hb13, hb14⟩ := hb
  have hD : daysFromEpoch a = daysFromEpoch b := by
    unfold epochSeconds at h; omega
  rw [hD] at ha13
  have hna : a.tm_year + 1900 = 1970 + ((a.tm_year - 70).toNat : Int) := by omega
  have hnb : b.tm_year + 1900 = 1970 + ((b.tm_year - 70).toNat : Int) := by omega
  have hu := daysToYear_unique (a := (a.tm_year - 70).toNat) (b := (b.tm_year - 70).toNat)
    ya.1 (hna ▸ ya.2) yb.1 (hnb ▸ yb.2) (by unfold daysFromEpoch at hD; omega)
  have hyear : a.tm_year = b.tm_year := by omega
  rw [hyear] at ha5 ha12
  have hm := daysToMonth_unique (b.tm_year + 1900)
    (a := a.tm_mon.toNat) (b := b.tm_mon.toNat) (r := a.tm_mday - 1) (s := b.tm_mday - 1)
    (by omega) (by omega) (by omega) (by omega) (by omega)
  unfold epochSeconds at h
  cases a; cases b
  simp only [Tm.mk.injEq] at *
  omega

theorem tm2tv_exact (c : Tm) (hc : ValidCivil c) (hmax : epochSeconds c ≤ 2147483647) :
    tm2tv c = { tv_sec := epochSeconds c, tv_usec := 0 } := by
  have hy := yday_range c hc
  have hyl := yearLength_bounds (c.tm_year + 1900)
  obtain ⟨h1, h2, h3, h4, h5, h6, h7, h8, h9, h10, h11, h12, h13, h14⟩ := hc
  have hcl := daysToYear_closed (c.tm_year - 70).toNat
  have hn : (((c.tm_year - 70).toNat : Nat) : Int) = c.tm_year - 70 := by omega
  rw [hn] at hcl
  have hE : epochSeconds c = (daysToYear (c.tm_year - 70).toNat + c.tm_yday) * 86400
      + c.tm_hour * 3600 + c.tm_min * 60 + c.tm_sec := by
    unfold epochSeconds daysFromEpoch; omega
  have hyr : c.tm_year ≤ 138 := by omega
  have hq : (c.tm_year - 1) / 100 = (c.tm_year + 299) / 400 := by omega
  have hp : (c.tm_year - 70 + 1) / 4 = (c.tm_year - 69) / 4 := by
    rw [show c.tm_year - 70 + 1 = c.tm_year - 69 by ring]
  have hq1 : (c.tm_year - 70 + 69) / 100 = (c.tm_year + 299) / 400 := by
    rw [show c.tm_year - 70 + 69 = c.tm_year - 1 by ring]; exact hq
  have hq2 : (c.tm_year - 70 + 369) / 400 = (c.tm_year + 299) / 400 := by
    rw [show c.tm_year - 70 + 369 = c.tm_year + 299 by ring]
  rw [hp, hq1, hq2] at hcl
  have e1 : isub c.tm_year 70 = c.tm_year - 70 := wrap32_id (by omega) (by omega)
  have e2 : isub c.tm_year 69 = c.tm_year - 69 := wrap32_id (by omega) (by omega)
  have e3 : isub c.tm_year 1 = c.tm_year - 1 := wrap32_id (by omega) (by omega)
  have e4 : iadd c.tm_year 299 = c.tm_year + 299 := wrap32_id (by omega) (by omega)
  have d2 : idiv (c.tm_year - 69) 4 = (c.tm_year - 69) / 4 := by
    unfold idiv; rw [Int.tdiv_eq_ediv (by omega) (by norm_num)]
    exact wrap32_id (by omega) (by omega)
  have d3 : idiv (c.tm_year - 1) 100 = (c.tm_year - 1) / 100 := by
    unfold idiv; rw [Int.tdiv_eq_ediv (by omega) (by norm_num)]
    exact wrap32_id (by omega) (by omega)
  have d4 : idiv (c.tm_year + 299) 400 = (c.tm_year + 299) / 400 := by
    unfold idiv; rw [Int.tdiv_eq_ediv (by omega) (by norm_num)]
    exact wrap32_id (by omega) (by omega)
  have m1 : imul c.tm_min 60 = c.tm_min * 60 := wrap32_id (by omega) (by omega)
  have m2 : imul c.tm_hour 3600 = c.tm_hour * 3600 := wrap32_id (by omega) (by omega)
  have m3 : imul c.tm_yday 86400 = c.tm_yday * 86400 := wrap32_id (by omega) (by omega)
  have m4 : imul (c.tm_year - 70) 31536000 = (c.tm_year - 70) * 31536000 :=
    wrap32_id (by omega) (by omega)
  have m5 : imul ((c.tm_year - 69) / 4) 86400 = (c.tm_year - 69) / 4 * 86400 :=
    wrap32_id (by omega) (by omega)
  have m6 : imul ((c.tm_year - 1) / 100) 86400 = (c.tm_year - 1) / 100 * 86400 :=
    wrap32_id (by omega) (by omega)
  have m7 : imul ((c.tm_year + 299) / 400) 86400 = (c.tm_year + 299) / 400 * 86400 :=
    wrap32_id (by omega) (by omega)
  have s1 : iadd c.tm_sec (c.tm_min * 60) = c.tm_sec + c.tm_min * 60 :=
    wrap32_id (by omega) (by omega)
  have s2 : iadd (c.tm_sec + c.tm_min * 60) (c.tm_hour * 3600)
      = c.tm_sec + c.tm_min * 60 + c.tm_hour * 3600 := wrap32_id (by omega) (by omega)
  have s3 : iadd (c.tm_sec + c.tm_min * 60 + c.tm_hour * 3600) (c.tm_yday * 86400)
      = c.tm_sec + c.tm_min * 60 + c.tm_hour * 3600 + c.tm_yday * 86400 :=
    wrap32_id (by omega) (by omega)
  have s4 : iadd (c.tm_sec + c.tm_min * 60 + c.tm_hour * 3600 + c.tm_yday * 86400)
      ((c.tm_year - 70) * 31536000)
      = c.tm_sec + c.tm_min * 60 + c.tm_hour * 3600 + c.tm_yday * 86400
        + (c.tm_year - 70) * 31536000 := wrap32_id (by omega) (by omega)
  have s5 : iadd (c.tm_sec + c.tm_min * 60 + c.tm_hour * 3600 + c.tm_yday * 86400
        + (c.tm_year - 70) * 31536000) ((c.tm_year - 69) / 4 * 86400)
      = c.tm_sec + c.tm_min * 60 + c.tm_hour * 3600 + c.tm_yday * 86400
        + (c.tm_year - 70) * 31536000 + (c.tm_year - 69) / 4 * 86400 :=
    wrap32_id (by omega) (by omega)
  have s6 : isub (c.tm_sec + c.tm_min * 60 + c.tm_hour * 3600 + c.tm_yday * 86400
        + (c.tm_year - 70) * 31536000 + (c.tm_year - 69) / 4 * 86400)
        ((c.tm_year - 1) / 100 * 86400)
      = c.tm_sec + c.tm_min * 60 + c.tm_hour * 3600 + c.tm_yday * 86400
        + (c.tm_year - 70) * 31536000 + (c.tm_year - 69) / 4 * 86400
        - (c.tm_year - 1) / 100 * 86400 := wrap32_id (by omega) (by omega)
  have s7 : iadd (c.tm_sec + c.tm_min * 60 + c.tm_hour * 3600 + c.tm_yday * 86400
        + (c.tm_year - 70) * 31536000 + (c.tm_year - 69) / 4 * 86400
        - (c.tm_year - 1) / 100 * 86400) ((c.tm_year + 299) / 400 * 86400)
      = c.tm_sec + c.tm_min * 60 + c.tm_hour * 3600 + c.tm_yday * 86400
        + (c.tm_year - 70) * 31536000 + (c.tm_year - 69) / 4 * 86400
        - (c.tm_year - 1) / 100 * 86400 + (c.tm_year + 299) / 400 * 86400 :=
    wrap32_id (by omega) (by omega)
  simp only [tm2tv, e1, e2, e3, e4, d2, d3, d4, m1, m2, m3, m4, m5, m6, m7,
    s1, s2, s3, s4, s5, s6, s7, Timeval.mk.injEq, and_true]
  omega


theorem epochSeconds_nonneg (c : Tm) (hc : ValidCivil c) : 0 ≤ epochSeconds c := by
  have h1 := daysToYear_nonneg (c.tm_year - 70).toNat
  have h2 := daysToMonth_nonneg (c.tm_year + 1900) c.tm_mon.toNat
  obtain ⟨_, _, _, _, _, _, _, _, _, _, _, _, _, _⟩ := hc
  unfold epochSeconds daysFromEpoch
  omega

/-- The year `tv2tm` finds lies at most `t / 31536000` years after 1970. -/
theorem tv2tm_year_bound (tv : Timeval) (h : 0 ≤ tv.tv_sec)
    (hmax : tv.tv_sec < 67767976233532800) (tm : Tm) (e : tv2tm tv = some tm) :
    70 ≤ tm.tm_year ∧ (tm.tm_year - 70) * 31536000 ≤ tv.tv_sec := by
  obtain ⟨tm', e', hv, hs, _⟩ := tv2tm_spec tv h hmax
  rw [e] at e'
  cases e'
  have hcl := daysToYear_closed (tm.tm_year - 70).toNat
  have h2 := daysToMonth_nonneg (tm.tm_year + 1900) tm.tm_mon.toNat
  obtain ⟨h1, _, _, h4, _, h6, _, h8, _, h10, _, _, _, _⟩ := hv
  unfold epochSeconds daysFromEpoch at hs
  omega

/-- Days from 1 January 1970 to 1 January 2147483647. -/
theorem daysToYear_last : daysToYear 2147481677 = 784351576412 := by
  rw [daysToYear_closed]; norm_num

/-- The year loop on day 784351595829 (1 March 2147483700): the counter reaches
2147483647 after 2147481677 rounds, the next `++y` takes it to -2147483648, and
the loop stops 52 rounds later at -2147483596, which it finds leap. -/
theorem yearLoop_after_wrap :
    yearLoop 784351595830 784351595829 1970 = some (59, -2147483596, 1) := by
  have h := yearLoop_skip 2147481677 782204114153 19417 0 (by norm_num) (by norm_num)
  have h0 : daysToYear 0 = 0 := rfl
  rw [Nat.zero_add, daysToYear_last, h0] at h
  norm_num at h
  rw [h]
  decide

/-- Evaluation of `tv2tm` from the values of its two loops. -/
theorem tv2tm_eval (tv : Timeval) (fuel : Nat) (d s mi h w r y l r' : Int) (m : Nat)
    (ha : Int.tdiv (Int.tdiv (Int.tdiv tv.tv_sec 60) 60) 24 = d)
    (hs : Int.tmod tv.tv_sec 60 = s)
    (hmi : Int.tmod (Int.tdiv tv.tv_sec 60) 60 = mi)
    (hh : Int.tmod (Int.tdiv (Int.tdiv tv.tv_sec 60) 60) 24 = h)
    (hw : Int.tmod (d + 4) 7 = w)
    (hf : d.toNat + 1 = fuel)
    (hy : yearLoop fuel d 1970 = some (r, y, l))
    (hm : monthLoop l 13 r 0 = some (r', m)) :
    tv2tm tv = some { tm_sec := s, tm_min := mi, tm_hour := h, tm_mday := r' + 1,
                      tm_mon := (m : Int), tm_year := isub y 1900, tm_wday := w,
                      tm_yday := r, tm_isdst := 0 } := by
  simp only [tv2tm, ha, hs, hmi, hh, hw, hf, hy, hm]

/-- Days from 1 January 1970 to 1 January 2147483700. -/
theorem daysToYear_century : daysToYear 2147481730 = 784351595770 := by
  rw [daysToYear_closed]; norm_num

theorem dates_range : ∀ d ∈ dates, 0 ≤ d ∧ d ≤ 2147483647 := by decide

/-! ## rtc.c: the properties -/

/-- C1 fails on the code one second past the largest 32-bit value: `tv2tm`, which
works in `time_t`, turns 2147483648 into 2038-01-19 03:14:08, and the `int` sum
of `tm2tv` overflows on that record (it wraps to -2147483648), so the round
trip does not return 2147483648. -/
theorem C1_roundtrip_fails_past_int_max :
    tv2tm { tv_sec := 2147483648, tv_usec := 0 }
        = some { tm_sec := 8, tm_min := 14, tm_hour := 3, tm_mday := 19, tm_mon := 0,
                 tm_year := 138, tm_wday := 2, tm_yday := 18, tm_isdst := 0 } ∧
      (tv2tm { tv_sec := 2147483648, tv_usec := 0 }).map tm2tv
        = some { tv_sec := -2147483648, tv_usec := 0 } ∧
      (tv2tm { tv_sec := 2147483648, tv_usec := 0 }).map tm2tv
        ≠ some { tv_sec := 2147483648, tv_usec := 0 } := by
  decide

/-- C1 within the `int` range: for every second count `t` with
`0 ≤ t ≤ 2147483647`, converting with `tv2tm` and back with `tm2tv` returns
`tv_sec = t` and `tv_usec = 0`; every entry of the test table `dates` lies in
that range and round-trips. -/
theorem C1_tm2tv_tv2tm (tv : Timeval) (h0 : 0 ≤ tv.tv_sec) (h1 : tv.tv_sec ≤ 2147483647) :
    (tv2tm tv).map tm2tv = some { tv_sec := tv.tv_sec, tv_usec := 0 } ∧
      ∀ d ∈ dates, (tv2tm { tv_sec := d, tv_usec := 0 }).map tm2tv
        = some { tv_sec := d, tv_usec := 0 } := by
  have key : ∀ tv : Timeval, 0 ≤ tv.tv_sec → tv.tv_sec ≤ 2147483647 →
      (tv2tm tv).map tm2tv = some { tv_sec := tv.tv_sec, tv_usec := 0 } := by
    intro tv h0 h1
    obtain ⟨tm, e, hv, hs, _⟩ := tv2tm_spec tv h0 (by omega)
    rw [e, Option.map_some', tm2tv_exact tm hv (by omega), hs]
  exact ⟨key tv h0 h1, fun d hd =>
    key { tv_sec := d, tv_usec := 0 } (dates_range d hd).1 (dates_range d hd).2⟩

theorem C1_tm2tv_tv2tm_witness :
    (tv2tm { tv_sec := 2147483647, tv_usec := 0 }).map tm2tv
        = some { tv_sec := 2147483647, tv_usec := 0 } ∧
      ∀ d ∈ dates, (tv2tm { tv_sec := d, tv_usec := 0 }).map tm2tv
        = some { tv_sec := d, tv_usec := 0 } :=
  C1_tm2tv_tv2tm { tv_sec := 2147483647, tv_usec := 0 } (by decide) (by decide)

/-- C2, as stated, fails once the `int` year counter of `tv2tm` has passed
2147483647: the instant 67767977879625600 is 1 March 2147483700 00:00:00 (that
record is a valid civil time with this second count, and 2147483700 is not a
leap year), and `tv2tm` returns 29 February of that year. -/
theorem C2_leap_day_in_common_year :
    tv2tm { tv_sec := 67767977879625600, tv_usec := 0 }
        = some { tm_sec := 0, tm_min := 0, tm_hour := 0, tm_mday := 29, tm_mon := 1,
                 tm_year := 2147481800, tm_wday := 1, tm_yday := 59, tm_isdst := 0 } ∧
      ¬ isLeapYear (2147481800 + 1900) ∧
      ValidCivil { tm_sec := 0, tm_min := 0, tm_hour := 0, tm_mday := 1, tm_mon := 2,
                   tm_year := 2147481800, tm_wday := 1, tm_yday := 59, tm_isdst := 0 } ∧
      epochSeconds { tm_sec := 0, tm_min := 0, tm_hour := 0, tm_mday := 1, tm_mon := 2,
                     tm_year := 2147481800, tm_wday := 1, tm_yday := 59, tm_isdst := 0 }
        = 67767977879625600 ∧
      ¬ ((29 : Int) ≤ monthLength (2147481800 + 1900) 1) := by
  have hk : ((2147481800 : Int) - 70).toNat = 2147481730 := by rfl
  have hD : daysFromEpoch { tm_sec := 0, tm_min := 0, tm_hour := 0, tm_mday := 1,
                            tm_mon := 2, tm_year := 2147481800, tm_wday := 1, tm_yday := 59,
                            tm_isdst := 0 }
      = 784351595829 := by
    have hm : daysToMonth ((2147481800 : Int) + 1900) (2 : Int).toNat = 59 := by decide
    simp only [daysFromEpoch, hk, daysToYear_century, hm]
    norm_num
  refine ⟨?_, by decide, ?_, ?_, by decide⟩
  · exact tv2tm_eval { tv_sec := 67767977879625600, tv_usec := 0 } 784351595830
      784351595829 0 0 0 1 59 (-2147483596) 1 28 1 (by decide) (by decide) (by decide)
      (by decide) (by decide) (by rfl) yearLoop_after_wrap (by decide)
  · unfold ValidCivil
    rw [hD]
    decide
  · unfold epochSeconds
    rw [hD]
    decide

/-- C2 (amended): for every `t` with `0 ≤ t < 67767976233532800` (before
1 January 2147483648, so that the year counter stays within `int`), `tv2tm`
returns a civil time whose hour, minute and second are the time of day
`t mod 86400` and whose year, month and day form the valid Gregorian date lying
`t / 86400` days after 1970-01-01, with `tm_yday` the day of that year; the
dates in the comments of the test table come out as written there. -/
theorem C2_tv2tm_gregorian (tv : Timeval) (h : 0 ≤ tv.tv_sec)
    (hmax : tv.tv_sec < 67767976233532800) :
    (∃ tm, tv2tm tv = some tm ∧
      0 ≤ tm.tm_sec ∧ tm.tm_sec ≤ 59 ∧ 0 ≤ tm.tm_min ∧ tm.tm_min ≤ 59 ∧
      0 ≤ tm.tm_hour ∧ tm.tm_hour ≤ 23 ∧
      tm.tm_hour * 3600 + tm.tm_min * 60 + tm.tm_sec = tv.tv_sec % 86400 ∧
      70 ≤ tm.tm_year ∧ 0 ≤ tm.tm_mon ∧ tm.tm_mon ≤ 11 ∧
      1 ≤ tm.tm_mday ∧ tm.tm_mday ≤ monthLength (tm.tm_year + 1900) tm.tm_mon.toNat ∧
      daysFromEpoch tm = tv.tv_sec / 86400 ∧
      tm.tm_yday = daysToMonth (tm.tm_year + 1900) tm.tm_mon.toNat + (tm.tm_mday - 1)) ∧
    tv2tm { tv_sec := 36633600, tv_usec := 0 } = some
      { tm_sec := 0, tm_min := 0, tm_hour := 0, tm_mday := 1, tm_mon := 2, tm_year := 71,
        tm_wday := 1, tm_yday := 59, tm_isdst := 0 } ∧
    tv2tm { tv_sec := 68169600, tv_usec := 0 } = some
      { tm_sec := 0, tm_min := 0, tm_hour := 0, tm_mday := 29, tm_mon := 1, tm_year := 72,
        tm_wday := 2, tm_yday := 59, tm_isdst := 0 } ∧
    tv2tm { tv_sec := 951782400, tv_usec := 0 } = some
      { tm_sec := 0, tm_min := 0, tm_hour := 0, tm_mday := 29, tm_mon := 1, tm_year := 100,
        tm_wday := 2, tm_yday := 59, tm_isdst := 0 } ∧
    tv2tm { tv_sec := 951868800, tv_usec := 0 } = some
      { tm_sec := 0, tm_min := 0, tm_hour := 0, tm_mday := 1, tm_mon := 2, tm_year := 100,
        tm_wday := 3, tm_yday := 60, tm_isdst := 0 } ∧
    tv2tm { tv_sec := 2147483647, tv_usec := 0 } = some
      { tm_sec := 7, tm_min := 14, tm_hour := 3, tm_mday := 19, tm_mon := 0, tm_year := 138,
        tm_wday := 2, tm_yday := 18, tm_isdst := 0 } := by
  refine ⟨?_, by decide, by decide, by decide, by decide, by decide⟩
  obtain ⟨tm, e, hv, hs, _⟩ := tv2tm_spec tv h hmax
  obtain ⟨h1, h2, h3, h4, h5, h6, h7, h8, h9, h10, h11, h12, h13, h14⟩ := hv
  refine ⟨tm, e, h10, h11, h8, h9, h6, h7, ?_, h1, h2, h3, h4, h5, ?_, h12⟩
  · unfold epochSeconds at hs; omega
  · unfold epochSeconds at hs; omega

theorem C2_tv2tm_gregorian_witness :
    (∃ tm, tv2tm { tv_sec := 951782400, tv_usec := 0 } = some tm ∧
      0 ≤ tm.tm_sec ∧ tm.tm_sec ≤ 59 ∧ 0 ≤ tm.tm_min ∧ tm.tm_min ≤ 59 ∧
      0 ≤ tm.tm_hour ∧ tm.tm_hour ≤ 23 ∧
      tm.tm_hour * 3600 + tm.tm_min * 60 + tm.tm_sec = (951782400 : Int) % 86400 ∧
      70 ≤ tm.tm_year ∧ 0 ≤ tm.tm_mon ∧ tm.tm_mon ≤ 11 ∧
      1 ≤ tm.tm_mday ∧ tm.tm_mday ≤ monthLength (tm.tm_year + 1900) tm.tm_mon.toNat ∧
      daysFromEpoch tm = (951782400 : Int) / 86400 ∧
      tm.tm_yday = daysToMonth (tm.tm_year + 1900) tm.tm_mon.toNat + (tm.tm_mday - 1)) :=
  (C2_tv2tm_gregorian { tv_sec := 951782400, tv_usec := 0 } (by decide) (by decide)).1

set_option maxRecDepth 20000 in
/-- C3 fails on the code at 2038-01-19T03:14:08Z, an instant the claim names: the
civil time is valid, the `int` sum of `tm2tv` overflows (it wraps to a negative
second count), and `tv2tm` of that count is a different record. -/
theorem C3_roundtrip_fails_past_int_max :
    ValidCivil { tm_sec := 8, tm_min := 14, tm_hour := 3, tm_mday := 19, tm_mon := 0,
                 tm_year := 138, tm_wday := 2, tm_yday := 18, tm_isdst := 0 } ∧
      tm2tv { tm_sec := 8, tm_min := 14, tm_hour := 3, tm_mday := 19, tm_mon := 0,
              tm_year := 138, tm_wday := 2, tm_yday := 18, tm_isdst := 0 }
        = { tv_sec := -2147483648, tv_usec := 0 } ∧
      tv2tm (tm2tv { tm_sec := 8, tm_min := 14, tm_hour := 3, tm_mday := 19, tm_mon := 0,
                     tm_year := 138, tm_wday := 2, tm_yday := 18, tm_isdst := 0 })
        ≠ some { tm_sec := 8, tm_min := 14, tm_hour := 3, tm_mday := 19, tm_mon := 0,
                 tm_year := 138, tm_wday := 2, tm_yday := 18, tm_isdst := 0 } := by
  decide

/-- C3 up to 2038-01-19T03:14:07Z: for every valid civil time `c` of 1970 or
later whose exact second count is at most 2147483647, `tv2tm (tm2tv c)` is `c`
field for field. -/
theorem C3_tv2tm_tm2tv (c : Tm) (hc : ValidCivil c) (hmax : epochSeconds c ≤ 2147483647) :
    tv2tm (tm2tv c) = some c := by
  rw [tm2tv_exact c hc hmax]
  obtain ⟨tm, e, hv, hs, _⟩ :=
    tv2tm_spec { tv_sec := epochSeconds c, tv_usec := 0 } (epochSeconds_nonneg c hc)
      (lt_of_le_of_lt hmax (by norm_num))
  rw [e, epochSeconds_inj tm c hv hc hs]

theorem C3_tv2tm_tm2tv_witness :
    tv2tm (tm2tv { tm_sec := 7, tm_min := 14, tm_hour := 3, tm_mday := 19, tm_mon := 0,
                   tm_year := 138, tm_wday := 2, tm_yday := 18, tm_isdst := 0 })
        = some { tm_sec := 7, tm_min := 14, tm_hour := 3, tm_mday := 19, tm_mon := 0,
                 tm_year := 138, tm_wday := 2, tm_yday := 18, tm_isdst := 0 } ∧
      tv2tm (tm2tv { tm_sec := 0, tm_min := 0, tm_hour := 0, tm_mday := 29, tm_mon := 1,
                     tm_year := 72, tm_wday := 2, tm_yday := 59, tm_isdst := 0 })
        = some { tm_sec := 0, tm_min := 0, tm_hour := 0, tm_mday := 29, tm_mon := 1,
                 tm_year := 72, tm_wday := 2, tm_yday := 59, tm_isdst := 0 } ∧
      tv2tm (tm2tv { tm_sec := 0, tm_min := 0, tm_hour := 0, tm_mday := 29, tm_mon := 1,
                     tm_year := 100, tm_wday := 2, tm_yday := 59, tm_isdst := 0 })
        = some { tm_sec := 0, tm_min := 0, tm_hour := 0, tm_mday := 29, tm_mon := 1,
                 tm_year := 100, tm_wday := 2, tm_yday := 59, tm_isdst := 0 } :=
  ⟨C3_tv2tm_tm2tv _ (by decide) (by decide), C3_tv2tm_tm2tv _ (by decide) (by decide),
    C3_tv2tm_tm2tv _ (by decide) (by decide)⟩

/-! ## sntp.c: lemmas and properties -/

theorem toU64_of_small (x : Int) (h0 : 0 ≤ x) (h1 : x < 18446744073709551616) :
    toU64 x = x.toNat := by
  unfold toU64; rw [Int.emod_eq_of_lt h0 h1]

theorem toS64_of_small (x : Nat) (h : x < 9223372036854775808) : toS64 x = (x : Int) := by
  unfold toS64; rw [if_pos h]

/-- The fraction computed by `tv2nt` fits 32 bits and converts back to within
one microsecond. -/
theorem frac_roundtrip (u : Nat) (hu : u ≤ 999999) :
    u * 4294967296 / 1000000 < 4294967296 ∧
      u * 4294967296 / 1000000 * 1000000 / 4294967296 ≤ u ∧
      u ≤ u * 4294967296 / 1000000 * 1000000 / 4294967296 + 1 := by
  omega

/-- The microseconds of `nt2tv (tv2nt tv)` written without the reductions. -/
theorem nt2tv_tv2nt_usec (tv : Timeval) (h0 : 0 ≤ tv.tv_usec) (h1 : tv.tv_usec ≤ 999999) :
    (nt2tv (tv2nt tv)).tv_usec
      = ((tv.tv_usec.toNat * 4294967296 / 1000000 * 1000000 / 4294967296 : Nat) : Int) := by
  obtain ⟨f1, f2, f3⟩ := frac_roundtrip tv.tv_usec.toNat (by omega)
  have hu : tv.tv_usec.toNat ≤ 999999 := by omega
  have a1 : toU64 tv.tv_usec = tv.tv_usec.toNat := toU64_of_small _ h0 (by omega)
  have a2 : tv.tv_usec.toNat * 4294967296 % 18446744073709551616
      = tv.tv_usec.toNat * 4294967296 := Nat.mod_eq_of_lt (by omega)
  have a3 : toU32 (tv.tv_usec.toNat * 4294967296 / 1000000)
      = tv.tv_usec.toNat * 4294967296 / 1000000 := Nat.mod_eq_of_lt f1
  have a4 : tv.tv_usec.toNat * 4294967296 / 1000000 * 1000000 % 18446744073709551616
      = tv.tv_usec.toNat * 4294967296 / 1000000 * 1000000 := Nat.mod_eq_of_lt (by omega)
  simp only [nt2tv, tv2nt, a1, a2, Nat.reduceMul, a3, a4]
  exact toS64_of_small _ (by omega)

/-- C4: for every `tv` with `tv_usec` in `[0, 999999]`, the microseconds of
`nt2tv (tv2nt tv)` differ from `tv_usec` by at most 1 (they are `tv_usec` or
`tv_usec - 1`). -/
theorem C4_usec_roundtrip (tv : Timeval) (h0 : 0 ≤ tv.tv_usec) (h1 : tv.tv_usec ≤ 999999) :
    |(nt2tv (tv2nt tv)).tv_usec - tv.tv_usec| ≤ 1 := by
  obtain ⟨_, f2, f3⟩ := frac_roundtrip tv.tv_usec.toNat (by omega)
  rw [abs_le, nt2tv_tv2nt_usec tv h0 h1]
  omega

theorem C4_usec_roundtrip_witness :
    |(nt2tv (tv2nt { tv_sec := 0, tv_usec := 999999 })).tv_usec - 999999| ≤ 1 :=
  C4_usec_roundtrip { tv_sec := 0, tv_usec := 999999 } (by decide) (by decide)

/-! ## tod.c: lemmas -/

theorem tod_step_calls (ok : HostCall → Bool) (tod : Tod) (lt rt : Int) :
    (tod_step ok tod lt rt).calls
      = [HostCall.settimeofday
          { tv_sec := Int.tdiv rt 1000000, tv_usec := Int.tmod rt 1000000 }] := by
  unfold tod_step; dsimp only; split_ifs <;> rfl

theorem tod_step_tod (ok : HostCall → Bool) (tod : Tod) (lt rt : Int) :
    (tod_step ok tod lt rt).tod =
      if ok (HostCall.settimeofday
          { tv_sec := Int.tdiv rt 1000000, tv_usec := Int.tmod rt 1000000 }) = false
      then tod else { tod with last_step := rt, last_adjust := rt } := by
  unfold tod_step; dsimp only; split_ifs <;> rfl

theorem tod_slew_calls (haveAdjtimex : Bool) (ok : HostCall → Bool) (tod : Tod)
    (lt rt : Int) :
    (tod_slew haveAdjtimex ok tod lt rt).calls
      = [if haveAdjtimex then HostCall.adjtimex (llsub rt lt)
         else HostCall.adjtime { tv_sec := Int.tdiv (llsub rt lt) 1000000,
                                 tv_usec := Int.tmod (llsub rt lt) 1000000 }] := by
  unfold tod_slew; dsimp only; split_ifs <;> rfl

theorem tod_slew_tod (haveAdjtimex : Bool) (ok : HostCall → Bool) (tod : Tod)
    (lt rt : Int) :
    (tod_slew haveAdjtimex ok tod lt rt).tod =
      if ok (if haveAdjtimex then HostCall.adjtimex (llsub rt lt)
             else HostCall.adjtime { tv_sec := Int.tdiv (llsub rt lt) 1000000,
                                     tv_usec := Int.tmod (llsub rt lt) 1000000 }) = false
      then tod else { tod with last_adjust := rt } := by
  unfold tod_slew; dsimp only; split_ifs <;> simp_all

theorem wrap64_id {x : Int} (h1 : -9223372036854775808 ≤ x) (h2 : x ≤ 9223372036854775807) :
    wrap64 x = x := by
  unfold wrap64; omega

/-- The difference of a `long long` value with itself is 0. -/
theorem llsub_self (x : Int) : llsub x x = 0 := by
  unfold llsub wrap64; rw [sub_self]; decide

/-- The microsecond count of a normalized `struct timeval` that fits a
`long long` is formed without overflow. -/
theorem usecOf_exact (tv : Timeval) (h0 : 0 ≤ tv.tv_sec) (h1 : 0 ≤ tv.tv_usec)
    (h3 : 1000000 * tv.tv_sec + tv.tv_usec ≤ 9223372036854775807) :
    usecOf tv = 1000000 * tv.tv_sec + tv.tv_usec := by
  unfold usecOf lladd llmul
  rw [wrap64_id (x := 1000000 * tv.tv_sec) (by omega) (by omega)]
  exact wrap64_id (by omega) (by omega)

/-- The value `adt` of `tod_set` is the absolute value of the exact difference
whenever that difference fits a `long long` and is not its least value. -/
theorem absDelta_eq_abs (ltv rtv : Timeval)
    (h1 : -9223372036854775808 < usecOf rtv - usecOf ltv)
    (h2 : usecOf rtv - usecOf ltv ≤ 9223372036854775807) :
    absDelta ltv rtv = |usecOf rtv - usecOf ltv| := by
  have e : llsub (usecOf rtv) (usecOf ltv) = usecOf rtv - usecOf ltv :=
    wrap64_id (by omega) (by omega)
  unfold absDelta
  rw [e]
  split_ifs with h
  · rw [abs_of_neg h]; exact wrap64_id (by omega) (by omega)
  · rw [abs_of_nonneg (by omega)]

/-- A `struct timeval` built by `tod_step` from `rt` denotes `rt` again. -/
theorem tdiv_tmod_usec (rt : Int) :
    1000000 * Int.tdiv rt 1000000 + Int.tmod rt 1000000 = rt :=
  Int.tdiv_add_tmod rt 1000000

/-- For a normalized `struct timeval` whose microsecond count fits a
`long long`, the split of the count recovers both fields. -/
theorem usecOf_split (tv : Timeval) (h0 : 0 ≤ tv.tv_sec) (h1 : 0 ≤ tv.tv_usec)
    (h2 : tv.tv_usec ≤ 999999)
    (h3 : 1000000 * tv.tv_sec + tv.tv_usec ≤ 9223372036854775807) :
    ({ tv_sec := Int.tdiv (usecOf tv) 1000000,
       tv_usec := Int.tmod (usecOf tv) 1000000 } : Timeval) = tv := by
  rw [usecOf_exact tv h0 h1 h3]
  have hn : 0 ≤ 1000000 * tv.tv_sec + tv.tv_usec := by omega
  rw [Int.tdiv_eq_ediv hn (by norm_num), Int.tmod_eq_emod hn (by norm_num)]
  cases tv with
  | mk s u =>
    simp only [Timeval.mk.injEq] at *
    omega

/-- The ways out of `tod_set`, as the source orders its tests. -/
theorem tod_set_cases (haveAdjtimex : Bool) (nothing : Int) (ok : HostCall → Bool)
    (tod : Tod) (ltv rtv : Timeval) :
    (tod.last_adjust ≠ 0 ∧ usecOf rtv < tod.last_adjust ∧
      tod_set haveAdjtimex nothing ok tod ltv rtv
        = { tod_step ok tod (usecOf ltv) (usecOf rtv) with ret := 0 }) ∨
    (¬(tod.last_adjust ≠ 0 ∧ usecOf rtv < tod.last_adjust) ∧
      (nothing ≠ 0 ∨ absDelta ltv rtv < tod.low_water) ∧
      tod_set haveAdjtimex nothing ok tod ltv rtv = { ret := 0, tod := tod, calls := [] }) ∨
    (¬(tod.last_adjust ≠ 0 ∧ usecOf rtv < tod.last_adjust) ∧ nothing = 0 ∧
      tod.low_water ≤ absDelta ltv rtv ∧
      tod.high_water < absDelta ltv rtv ∧
      tod_set haveAdjtimex nothing ok tod ltv rtv
        = { tod_step ok tod (usecOf ltv) (usecOf rtv) with ret := 0 }) ∨
    (¬(tod.last_adjust ≠ 0 ∧ usecOf rtv < tod.last_adjust) ∧ nothing = 0 ∧
      tod.low_water ≤ absDelta ltv rtv ∧
      absDelta ltv rtv ≤ tod.high_water ∧
      tod_set haveAdjtimex nothing ok tod ltv rtv
        = { tod_slew haveAdjtimex ok tod (usecOf ltv) (usecOf ltv) with ret := 0 }) := by
  have hset : tod_set haveAdjtimex nothing ok tod ltv rtv
      = if tod.last_adjust ≠ 0 ∧ usecOf rtv < tod.last_adjust then
          { tod_step ok tod (usecOf ltv) (usecOf rtv) with ret := 0 }
        else if nothing ≠ 0 then { ret := 0, tod := tod, calls := [] }
        else if absDelta ltv rtv < tod.low_water then { ret := 0, tod := tod, calls := [] }
        else if absDelta ltv rtv > tod.high_water then
          { tod_step ok tod (usecOf ltv) (usecOf rtv) with ret := 0 }
        else { tod_slew haveAdjtimex ok tod (usecOf ltv) (usecOf ltv) with ret := 0 } := rfl
  rw [hset]
  by_cases hb : tod.last_adjust ≠ 0 ∧ usecOf rtv < tod.last_adjust
  · left
    exact ⟨hb.1, hb.2, by rw [if_pos hb]⟩
  · right
    by_cases hn : nothing ≠ 0
    · left
      exact ⟨hb, Or.inl hn, by rw [if_neg hb, if_pos hn]⟩
    · by_cases hl : absDelta ltv rtv < tod.low_water
      · left
        exact ⟨hb, Or.inr hl, by rw [if_neg hb, if_neg hn, if_pos hl]⟩
      · right
        by_cases hh : absDelta ltv rtv > tod.high_water
        · left
          exact ⟨hb, not_not.mp hn, not_lt.mp hl, hh,
            by rw [if_neg hb, if_neg hn, if_neg hl, if_pos hh]⟩
        · right
          exact ⟨hb, not_not.mp hn, not_lt.mp hl, not_lt.mp hh,
            by rw [if_neg hb, if_neg hn, if_neg hl, if_neg hh]⟩


/-! ## tod.c: the properties -/

/-- Supplement to C5: a controller whose high-water mark lies below its
low-water mark (`tod_open 0 500` has marks 1000 and 500, see C20) does not step
for `|dt| = 700`, above the high-water mark: the low-water test comes first and
ends the call. -/
theorem C5_no_step_below_low_water :
    tod_open 0 500
        = { last_step := 0, last_adjust := 0, low_water := 1000, high_water := 500 } ∧
      (500 : Int) < |usecOf { tv_sec := 100, tv_usec := 700 }
        - usecOf { tv_sec := 100, tv_usec := 0 }| ∧
      (tod_set true 0 (fun _ => true) (tod_open 0 500)
        { tv_sec := 100, tv_usec := 0 } { tv_sec := 100, tv_usec := 700 }).calls = [] ∧
      (tod_set true 0 (fun _ => true) (tod_open 0 500)
        { tv_sec := 100, tv_usec := 0 } { tv_sec := 100, tv_usec := 700 }).calls
        ≠ [HostCall.settimeofday { tv_sec := 100, tv_usec := 700 }] := by
  decide

/-- C5 fails on the code in the slew band.  When the backwards rule does not
apply, dry-run is off and `dt = rt - lt` fits a `long long`, `tod_set` makes no
host call when `|dt| < low_water` and steps the clock to `rt` when
`|dt| ≥ low_water` and `|dt| > high_water`; when `low_water ≤ |dt| ≤ high_water`
it calls the slew primitive with offset 0 (`adjtime` with 0 s 0 us), whatever
`dt` is, so the clock is not slewed.  With marks 1000 and 1000000, `dt = 500` is
a no-op and `dt = 1000001` a step, while `dt = 500000` and `dt = 2000` hand over
offset 0. -/
theorem C5_slew_band_hands_zero_offset (haveAdjtimex : Bool) (ok : HostCall → Bool)
    (tod : Tod) (ltv rtv : Timeval)
    (hb : tod.last_adjust = 0 ∨ tod.last_adjust ≤ usecOf rtv)
    (hfit1 : -9223372036854775808 < usecOf rtv - usecOf ltv)
    (hfit2 : usecOf rtv - usecOf ltv ≤ 9223372036854775807) :
    (|usecOf rtv - usecOf ltv| < tod.low_water →
      (tod_set haveAdjtimex 0 ok tod ltv rtv).calls = [] ∧
      (tod_set haveAdjtimex 0 ok tod ltv rtv).tod = tod) ∧
    (tod.low_water ≤ |usecOf rtv - usecOf ltv| →
      tod.high_water < |usecOf rtv - usecOf ltv| →
      (tod_set haveAdjtimex 0 ok tod ltv rtv).calls
        = [HostCall.settimeofday { tv_sec := Int.tdiv (usecOf rtv) 1000000,
                                   tv_usec := Int.tmod (usecOf rtv) 1000000 }]) ∧
    (tod.low_water ≤ |usecOf rtv - usecOf ltv| →
      |usecOf rtv - usecOf ltv| ≤ tod.high_water →
      (tod_set haveAdjtimex 0 ok tod ltv rtv).calls
        = [if haveAdjtimex then HostCall.adjtimex 0
           else HostCall.adjtime { tv_sec := 0, tv_usec := 0 }]) ∧
    (tod_set haveAdjtimex 0 (fun _ => true)
        { last_step := 0, last_adjust := 0, low_water := 1000, high_water := 1000000 }
        { tv_sec := 100, tv_usec := 0 } { tv_sec := 100, tv_usec := 500 }).calls = [] ∧
    (tod_set haveAdjtimex 0 (fun _ => true)
        { last_step := 0, last_adjust := 0, low_water := 1000, high_water := 1000000 }
        { tv_sec := 100, tv_usec := 0 } { tv_sec := 101, tv_usec := 1 }).calls
      = [HostCall.settimeofday { tv_sec := 101, tv_usec := 1 }] ∧
    (usecOf { tv_sec := 100, tv_usec := 500000 } - usecOf { tv_sec := 100, tv_usec := 0 }
        = 500000 ∧
      (tod_set haveAdjtimex 0 (fun _ => true)
        { last_step := 0, last_adjust := 0, low_water := 1000, high_water := 1000000 }
        { tv_sec := 100, tv_usec := 0 } { tv_sec := 100, tv_usec := 500000 }).calls
      = [if haveAdjtimex then HostCall.adjtimex 0
         else HostCall.adjtime { tv_sec := 0, tv_usec := 0 }]) ∧
    (usecOf { tv_sec := 100, tv_usec := 2000 } - usecOf { tv_sec := 100, tv_usec := 0 }
        = 2000 ∧
      (tod_set haveAdjtimex 0 (fun _ => true)
        { last_step := 0, last_adjust := 0, low_water := 1000, high_water := 1000000 }
        { tv_sec := 100, tv_usec := 0 } { tv_sec := 100, tv_usec := 2000 }).calls
      = [if haveAdjtimex then HostCall.adjtimex 0
         else HostCall.adjtime { tv_sec := 0, tv_usec := 0 }]) := by
  have hb' : ¬(tod.last_adjust ≠ 0 ∧ usecOf rtv < tod.last_adjust) := by
    rintro ⟨h1, h2⟩
    rcases hb with h | h
    · exact h1 h
    · omega
  have habs := absDelta_eq_abs ltv rtv hfit1 hfit2
  refine ⟨?_, ?_, ?_, ?_, ?_, ?_, ?_⟩
  · intro hlow
    rcases tod_set_cases haveAdjtimex 0 ok tod ltv rtv with
      ⟨h1, h2, _⟩ | ⟨_, _, e⟩ | ⟨_, _, h3, _, _⟩ | ⟨_, _, h3, _, _⟩
    · exact absurd ⟨h1, h2⟩ hb'
    · rw [e]; exact ⟨rfl, rfl⟩
    · rw [habs] at h3; omega
    · rw [habs] at h3; omega
  · intro hlow hhigh
    rcases tod_set_cases haveAdjtimex 0 ok tod ltv rtv with
      ⟨h1, h2, _⟩ | ⟨_, h3, _⟩ | ⟨_, _, _, _, e⟩ | ⟨_, _, _, h3, _⟩
    · exact absurd ⟨h1, h2⟩ hb'
    · rcases h3 with h3 | h3
      · exact absurd rfl h3
      · rw [habs] at h3; omega
    · rw [e]; exact tod_step_calls ok tod _ _
    · rw [habs] at h3; omega
  · intro hlow hhigh
    rcases tod_set_cases haveAdjtimex 0 ok tod ltv rtv with
      ⟨h1, h2, _⟩ | ⟨_, h3, _⟩ | ⟨_, _, _, h3, _⟩ | ⟨_, _, _, _, e⟩
    · exact absurd ⟨h1, h2⟩ hb'
    · rcases h3 with h3 | h3
      · exact absurd rfl h3
      · rw [habs] at h3; omega
    · rw [habs] at h3; omega
    · rw [e]
      show (tod_slew haveAdjtimex ok tod (usecOf ltv) (usecOf ltv)).calls = _
      rw [tod_slew_calls, llsub_self]
      rfl
  · cases haveAdjtimex <;> decide
  · cases haveAdjtimex <;> decide
  · cases haveAdjtimex <;> decide
  · cases haveAdjtimex <;> decide

theorem C5_slew_band_hands_zero_offset_witness :
    usecOf { tv_sec := 100, tv_usec := 2000 } - usecOf { tv_sec := 100, tv_usec := 0 } = 2000 ∧
      (tod_set true 0 (fun _ => true)
        { last_step := 0, last_adjust := 0, low_water := 1000, high_water := 1000000 }
        { tv_sec := 100, tv_usec := 0 } { tv_sec := 100, tv_usec := 2000 }).calls
      = [HostCall.adjtimex 0] :=
  ⟨by decide,
    (C5_slew_band_hands_zero_offset true (fun _ => true)
      { last_step := 0, last_adjust := 0, low_water := 1000, high_water := 1000000 }
      { tv_sec := 100, tv_usec := 0 } { tv_sec := 100, tv_usec := 2000 }
      (Or.inl rfl) (by decide) (by decide)).2.2.1 (by decide) (by decide)⟩

/-- C6: when `last_adjust` is non-zero and the reference time `rt` lies before
it, `tod_set` calls `settimeofday` with the `struct timeval` of `rt`, whatever
the thresholds, the dry-run flag and the local time are, and a successful call
records `rt` as the last step and the last adjustment. -/
theorem C6_backwards_steps (haveAdjtimex : Bool) (nothing : Int) (ok : HostCall → Bool)
    (tod : Tod) (ltv rtv : Timeval)
    (h1 : tod.last_adjust ≠ 0) (h2 : usecOf rtv < tod.last_adjust) :
    (tod_set haveAdjtimex nothing ok tod ltv rtv).calls
        = [HostCall.settimeofday { tv_sec := Int.tdiv (usecOf rtv) 1000000,
                                   tv_usec := Int.tmod (usecOf rtv) 1000000 }] ∧
      1000000 * Int.tdiv (usecOf rtv) 1000000 + Int.tmod (usecOf rtv) 1000000 = usecOf rtv ∧
      (ok (HostCall.settimeofday { tv_sec := Int.tdiv (usecOf rtv) 1000000,
                                   tv_usec := Int.tmod (usecOf rtv) 1000000 }) = true →
        (tod_set haveAdjtimex nothing ok tod ltv rtv).tod
          = { tod with last_step := usecOf rtv, last_adjust := usecOf rtv }) := by
  rcases tod_set_cases haveAdjtimex nothing ok tod ltv rtv with
    ⟨_, _, e⟩ | ⟨h, _⟩ | ⟨h, _⟩ | ⟨h, _⟩
  · rw [e]
    refine ⟨tod_step_calls ok tod _ _, tdiv_tmod_usec _, ?_⟩
    intro hok
    show (tod_step ok tod (usecOf ltv) (usecOf rtv)).tod = _
    rw [tod_step_tod, if_neg (by simp [hok])]
  · exact absurd ⟨h1, h2⟩ h
  · exact absurd ⟨h1, h2⟩ h
  · exact absurd ⟨h1, h2⟩ h

theorem C6_backwards_steps_witness :
    (tod_set true 0 (fun _ => true)
        { last_step := 0, last_adjust := 200000000, low_water := 1000, high_water := 1000000 }
        { tv_sec := 100, tv_usec := 0 } { tv_sec := 100, tv_usec := 500 }).calls
        = [HostCall.settimeofday
            { tv_sec := Int.tdiv (usecOf { tv_sec := 100, tv_usec := 500 }) 1000000,
              tv_usec := Int.tmod (usecOf { tv_sec := 100, tv_usec := 500 }) 1000000 }] :=
  (C6_backwards_steps true 0 (fun _ => true)
    { last_step := 0, last_adjust := 200000000, low_water := 1000, high_water := 1000000 }
    { tv_sec := 100, tv_usec := 0 } { tv_sec := 100, tv_usec := 500 }
    (by decide) (by decide)).1

/-- C7 fails on the code: with marks 1000 and 1000000, local time 100 s and
reference time 100.002 s (`rt - lt = 2000`), `tod_set` slews, but the offset it
hands to `adjtimex` is 0 (and the interval it hands to `adjtime` is 0 s 0 us),
because `tod_slew` is called with `lt` in the place of `rt`. -/
theorem C7_slew_hands_zero_offset :
    usecOf { tv_sec := 100, tv_usec := 2000 } - usecOf { tv_sec := 100, tv_usec := 0 } = 2000 ∧
    (tod_set true 0 (fun _ => true)
        { last_step := 0, last_adjust := 0, low_water := 1000, high_water := 1000000 }
        { tv_sec := 100, tv_usec := 0 } { tv_sec := 100, tv_usec := 2000 }).calls
      = [HostCall.adjtimex 0] ∧
    (tod_set false 0 (fun _ => true)
        { last_step := 0, last_adjust := 0, low_water := 1000, high_water := 1000000 }
        { tv_sec := 100, tv_usec := 0 } { tv_sec := 100, tv_usec := 2000 }).calls
      = [HostCall.adjtime { tv_sec := 0, tv_usec := 0 }] := by
  decide

/-- C8, as stated, fails for a normalized reference time whose microsecond
count does not fit a `long long`: with `rtv = {9223372036855 s, 0 us}` the
product `1000000LL * tv_sec` wraps, `tod_set` steps, and the successful
`settimeofday` call carries `{-9223372036854 s, -551616 us}`, not `rtv`; the
recorded last step is not `1000000 * tv_sec + tv_usec`. -/
theorem C8_step_wraps_past_long_long :
    (tod_set true 0 (fun _ => true)
        { last_step := 0, last_adjust := 0, low_water := 1000, high_water := 1000000 }
        { tv_sec := 100, tv_usec := 0 } { tv_sec := 9223372036855, tv_usec := 0 }).calls
        = [HostCall.settimeofday { tv_sec := -9223372036854, tv_usec := -551616 }] ∧
      (tod_set true 0 (fun _ => true)
        { last_step := 0, last_adjust := 0, low_water := 1000, high_water := 1000000 }
        { tv_sec := 100, tv_usec := 0 } { tv_sec := 9223372036855, tv_usec := 0 }).tod.last_step
        = -9223372036854551616 ∧
      (tod_set true 0 (fun _ => true)
        { last_step := 0, last_adjust := 0, low_water := 1000, high_water := 1000000 }
        { tv_sec := 100, tv_usec := 0 } { tv_sec := 9223372036855, tv_usec := 0 }).tod.last_step
        ≠ 1000000 * 9223372036855 + 0 := by
  decide

/-- C8 (amended): for a normalized reference time `rtv` whose microsecond count
`1000000 * tv_sec + tv_usec` fits a `long long` (at most 9223372036854775807),
when `tod_set` steps the clock and the host call succeeds, the call is
`settimeofday` with exactly `rtv`, the last step and the last adjustment both
become `1000000 * tv_sec + tv_usec`, and the two thresholds keep their values. -/
theorem C8_successful_step (haveAdjtimex : Bool) (nothing : Int) (ok : HostCall → Bool)
    (tod : Tod) (ltv rtv : Timeval)
    (hs : 0 ≤ rtv.tv_sec) (hu0 : 0 ≤ rtv.tv_usec) (hu1 : rtv.tv_usec ≤ 999999)
    (hfit : 1000000 * rtv.tv_sec + rtv.tv_usec ≤ 9223372036854775807)
    (hstep : ∃ tv, (tod_set haveAdjtimex nothing ok tod ltv rtv).calls
      = [HostCall.settimeofday tv])
    (hok : ∀ c ∈ (tod_set haveAdjtimex nothing ok tod ltv rtv).calls, ok c = true) :
    (tod_set haveAdjtimex nothing ok tod ltv rtv).calls = [HostCall.settimeofday rtv] ∧
      (tod_set haveAdjtimex nothing ok tod ltv rtv).tod.last_step
        = 1000000 * rtv.tv_sec + rtv.tv_usec ∧
      (tod_set haveAdjtimex nothing ok tod ltv rtv).tod.last_adjust
        = 1000000 * rtv.tv_sec + rtv.tv_usec ∧
      (tod_set haveAdjtimex nothing ok tod ltv rtv).tod.low_water = tod.low_water ∧
      (tod_set haveAdjtimex nothing ok tod ltv rtv).tod.high_water = tod.high_water := by
  have key : tod_set haveAdjtimex nothing ok tod ltv rtv
      = { tod_step ok tod (usecOf ltv) (usecOf rtv) with ret := 0 } := by
    obtain ⟨tv, htv⟩ := hstep
    rcases tod_set_cases haveAdjtimex nothing ok tod ltv rtv with
      ⟨_, _, e⟩ | ⟨_, _, e⟩ | ⟨_, _, _, _, e⟩ | ⟨_, _, _, _, e⟩
    · exact e
    · rw [e] at htv; simp at htv
    · exact e
    · rw [e] at htv
      have := tod_slew_calls haveAdjtimex ok tod (usecOf ltv) (usecOf ltv)
      simp only [this] at htv
      cases haveAdjtimex <;> simp at htv
  have hc : (tod_set haveAdjtimex nothing ok tod ltv rtv).calls
      = [HostCall.settimeofday rtv] := by
    rw [key]
    show (tod_step ok tod (usecOf ltv) (usecOf rtv)).calls = _
    rw [tod_step_calls, usecOf_split rtv hs hu0 hu1 hfit]
  have hok' : ok (HostCall.settimeofday rtv) = true := hok _ (by rw [hc]; simp)
  have ht : (tod_set haveAdjtimex nothing ok tod ltv rtv).tod
      = { tod with last_step := usecOf rtv, last_adjust := usecOf rtv } := by
    rw [key]
    show (tod_step ok tod (usecOf ltv) (usecOf rtv)).tod = _
    rw [tod_step_tod, usecOf_split rtv hs hu0 hu1 hfit, if_neg (by simp [hok'])]
  rw [ht]
  exact ⟨hc, usecOf_exact rtv hs hu0 hfit, usecOf_exact rtv hs hu0 hfit, rfl, rfl⟩

theorem C8_successful_step_witness :
    (tod_set true 0 (fun _ => true)
        { last_step := 0, last_adjust := 0, low_water := 1000, high_water := 1000000 }
        { tv_sec := 100, tv_usec := 0 } { tv_sec := 102, tv_usec := 5 }).calls
        = [HostCall.settimeofday { tv_sec := 102, tv_usec := 5 }] ∧
      (tod_set true 0 (fun _ => true)
        { last_step := 0, last_adjust := 0, low_water := 1000, high_water := 1000000 }
        { tv_sec := 100, tv_usec := 0 } { tv_sec := 102, tv_usec := 5 }).tod.last_step
        = 1000000 * 102 + 5 :=
  have h := C8_successful_step true 0 (fun _ => true)
    { last_step := 0, last_adjust := 0, low_water := 1000, high_water := 1000000 }
    { tv_sec := 100, tv_usec := 0 } { tv_sec := 102, tv_usec := 5 }
    (by decide) (by decide) (by decide) (by decide)
    ⟨{ tv_sec := 102, tv_usec := 5 }, by decide⟩ (fun _ _ => rfl)
  ⟨h.1, h.2.1⟩

/-- C9 fails on the code: `tod_set` returns 0 whatever the host calls answer; with
marks 1000 and 1000000, local time 100 s and reference time 102 s, the step's
`settimeofday` fails and `tod_set` still returns 0 (the -1 of `tod_step` is
dropped), and likewise on the backwards-step and slew paths. -/
theorem C9_tod_set_returns_zero (haveAdjtimex : Bool) (nothing : Int)
    (ok : HostCall → Bool) (tod : Tod) (ltv rtv : Timeval) :
    (tod_set haveAdjtimex nothing ok tod ltv rtv).ret = 0 ∧
    tod_step (fun _ => false)
        { last_step := 0, last_adjust := 0, low_water := 1000, high_water := 1000000 }
        100000000 102000000
      = { ret := -1,
          tod := { last_step := 0, last_adjust := 0, low_water := 1000,
                   high_water := 1000000 },
          calls := [HostCall.settimeofday { tv_sec := 102, tv_usec := 0 }] } ∧
    tod_set haveAdjtimex 0 (fun _ => false)
        { last_step := 0, last_adjust := 0, low_water := 1000, high_water := 1000000 }
        { tv_sec := 100, tv_usec := 0 } { tv_sec := 102, tv_usec := 0 }
      = { ret := 0,
          tod := { last_step := 0, last_adjust := 0, low_water := 1000,
                   high_water := 1000000 },
          calls := [HostCall.settimeofday { tv_sec := 102, tv_usec := 0 }] } ∧
    (tod_set haveAdjtimex 0 (fun _ => false)
        { last_step := 0, last_adjust := 200000000, low_water := 1000,
          high_water := 1000000 }
        { tv_sec := 100, tv_usec := 0 } { tv_sec := 100, tv_usec := 0 }).ret = 0 ∧
    (tod_set haveAdjtimex 0 (fun _ => false)
        { last_step := 0, last_adjust := 0, low_water := 1000, high_water := 1000000 }
        { tv_sec := 100, tv_usec := 0 } { tv_sec := 100, tv_usec := 2000 }).ret = 0 := by
  refine ⟨?_, by decide, ?_, ?_, ?_⟩
  · rcases tod_set_cases haveAdjtimex nothing ok tod ltv rtv with
      ⟨_, _, e⟩ | ⟨_, _, e⟩ | ⟨_, _, _, _, e⟩ | ⟨_, _, _, _, e⟩ <;> rw [e]
  · cases haveAdjtimex <;> decide
  · cases haveAdjtimex <;> decide
  · cases haveAdjtimex <;> decide

/-- C10: when a host call made by `tod_step`, by `tod_slew` or by `tod_set` fails,
the controller state after the call is the state before it: `last_step`,
`last_adjust`, `low_water` and `high_water` are unchanged. -/
theorem C10_failed_call_keeps_state (haveAdjtimex : Bool) (ok : HostCall → Bool)
    (tod : Tod) (lt rt : Int) (o : Outcome)
    (ho : o = tod_step ok tod lt rt ∨ o = tod_slew haveAdjtimex ok tod lt rt ∨
      ∃ (nothing : Int) (ltv rtv : Timeval), o = tod_set haveAdjtimex nothing ok tod ltv rtv)
    (hfail : ∃ c ∈ o.calls, ok c = false) : o.tod = tod := by
  have hstep : ∀ a b : Int, (∃ c ∈ (tod_step ok tod a b).calls, ok c = false) →
      (tod_step ok tod a b).tod = tod := by
    intro a b ⟨c, hc, hf⟩
    rw [tod_step_calls] at hc
    rw [List.mem_singleton] at hc
    subst hc
    rw [tod_step_tod, if_pos hf]
  have hslew : ∀ a b : Int, (∃ c ∈ (tod_slew haveAdjtimex ok tod a b).calls, ok c = false) →
      (tod_slew haveAdjtimex ok tod a b).tod = tod := by
    intro a b ⟨c, hc, hf⟩
    rw [tod_slew_calls] at hc
    rw [List.mem_singleton] at hc
    subst hc
    rw [tod_slew_tod, if_pos hf]
  rcases ho with rfl | rfl | ⟨nothing, ltv, rtv, rfl⟩
  · exact hstep lt rt hfail
  · exact hslew lt rt hfail
  · rcases tod_set_cases haveAdjtimex nothing ok tod ltv rtv with
      ⟨_, _, e⟩ | ⟨_, _, e⟩ | ⟨_, _, _, _, e⟩ | ⟨_, _, _, _, e⟩
    · rw [e] at hfail ⊢; exact hstep _ _ hfail
    · rw [e]
    · rw [e] at hfail ⊢; exact hstep _ _ hfail
    · rw [e] at hfail ⊢; exact hslew _ _ hfail

theorem C10_failed_call_keeps_state_witness :
    (tod_set true 0 (fun _ => false)
        { last_step := 7, last_adjust := 9, low_water := 1000, high_water := 1000000 }
        { tv_sec := 100, tv_usec := 0 } { tv_sec := 102, tv_usec := 0 }).tod
      = { last_step := 7, last_adjust := 9, low_water := 1000, high_water := 1000000 } :=
  C10_failed_call_keeps_state true (fun _ => false)
    { last_step := 7, last_adjust := 9, low_water := 1000, high_water := 1000000 } 0 0
    _ (Or.inr (Or.inr ⟨0, { tv_sec := 100, tv_usec := 0 }, { tv_sec := 102, tv_usec := 0 }, rfl⟩))
    ⟨HostCall.settimeofday { tv_sec := 102, tv_usec := 0 }, by decide, rfl⟩

/-! ## tod.c: dry-run and thresholds -/

/-- The thresholds set by `tod_open` are positive for non-negative arguments. -/
theorem tod_open_positive (low high : Int) (hl : 0 ≤ low) (hh : 0 ≤ high) :
    0 < (tod_open low high).low_water ∧ 0 < (tod_open low high).high_water := by
  unfold tod_open DEFAULT_LOW_WATER DEFAULT_HIGH_WATER
  dsimp only
  constructor <;> split_ifs <;> omega

/-- C11, as stated, fails in a state where the backwards rule applies: with the
dry-run flag set, a non-zero `last_adjust` of 200 s and a reference time of
100 s, `tod_set` reaches `tod_step` before it looks at the flag, calls
`settimeofday` and rewrites the state. -/
theorem C11_dry_run_steps_backwards :
    tod_set true 1 (fun _ => true)
        { last_step := 0, last_adjust := 200000000, low_water := 1000,
          high_water := 1000000 }
        { tv_sec := 100, tv_usec := 0 } { tv_sec := 100, tv_usec := 0 }
      = { ret := 0,
          tod := { last_step := 100000000, last_adjust := 100000000, low_water := 1000,
                   high_water := 1000000 },
          calls := [HostCall.settimeofday { tv_sec := 100, tv_usec := 0 }] } := by
  decide

/-- C11 (amended): when the dry-run flag is set and the backwards rule does not
apply (`last_adjust = 0`, as `tod_open` leaves it, or `rt ≥ last_adjust`),
`tod_set` makes no host call, leaves the controller state unchanged and returns
0, whatever the thresholds, the local time and the answers of the host are; the
state it leaves satisfies the same condition again. -/
theorem C11_dry_run_makes_no_call (haveAdjtimex : Bool) (nothing : Int)
    (ok : HostCall → Bool) (tod : Tod) (ltv rtv : Timeval)
    (hn : nothing ≠ 0) (hb : tod.last_adjust = 0 ∨ tod.last_adjust ≤ usecOf rtv) :
    tod_set haveAdjtimex nothing ok tod ltv rtv = { ret := 0, tod := tod, calls := [] } ∧
      (∀ low high : Int, (tod_open low high).last_adjust = 0) ∧
      ((tod_set haveAdjtimex nothing ok tod ltv rtv).tod.last_adjust = 0 ∨
        (tod_set haveAdjtimex nothing ok tod ltv rtv).tod.last_adjust ≤ usecOf rtv) := by
  have hb' : ¬(tod.last_adjust ≠ 0 ∧ usecOf rtv < tod.last_adjust) := by
    rintro ⟨h1, h2⟩
    rcases hb with h | h
    · exact h1 h
    · omega
  have e : tod_set haveAdjtimex nothing ok tod ltv rtv
      = { ret := 0, tod := tod, calls := [] } := by
    rcases tod_set_cases haveAdjtimex nothing ok tod ltv rtv with
      ⟨h1, h2, _⟩ | ⟨_, _, e⟩ | ⟨_, h3, _⟩ | ⟨_, h3, _⟩
    · exact absurd ⟨h1, h2⟩ hb'
    · exact e
    · exact absurd h3 hn
    · exact absurd h3 hn
  refine ⟨e, fun _ _ => rfl, ?_⟩
  rw [e]
  exact hb

theorem C11_dry_run_makes_no_call_witness :
    tod_set true 1 (fun _ => true)
        { last_step := 0, last_adjust := 50000000, low_water := 1000,
          high_water := 1000000 }
        { tv_sec := 100, tv_usec := 0 } { tv_sec := 102, tv_usec := 0 }
      = { ret := 0,
          tod := { last_step := 0, last_adjust := 50000000, low_water := 1000,
                   high_water := 1000000 },
          calls := [] } :=
  (C11_dry_run_makes_no_call true 1 (fun _ => true)
    { last_step := 0, last_adjust := 50000000, low_water := 1000, high_water := 1000000 }
    { tv_sec := 100, tv_usec := 0 } { tv_sec := 102, tv_usec := 0 }
    (by decide) (Or.inr (by decide))).1

/-- C20 fails on the code: the pair (0, 500), the high-water option alone, passes
the three tests of `main`, and `tod_open` then sets the low-water mark to its
default 1000, above the high-water mark 500. -/
theorem C20_default_low_water_above_high_water :
    mainAcceptsThresholds 0 500 = true ∧
      (tod_open 0 500).low_water = 1000 ∧ (tod_open 0 500).high_water = 500 ∧
      ¬ (tod_open 0 500).low_water ≤ (tod_open 0 500).high_water := by
  decide
/-! ## sntp.c: lemmas on the protocol engine -/

/-- The four bytes of a word put together from four bytes. -/
theorem bytes_of_word (p q r t : Nat) (hp : p < 256) (hq : q < 256) (hr : r < 256)
    (ht : t < 256) :
    (p * 16777216 + q * 65536 + r * 256 + t) % 256 = t ∧
      (p * 16777216 + q * 65536 + r * 256 + t) / 256 % 256 = r ∧
      (p * 16777216 + q * 65536 + r * 256 + t) / 65536 % 256 = q ∧
      (p * 16777216 + q * 65536 + r * 256 + t) / 16777216 % 256 = p := by
  refine ⟨?_, ?_, ?_, ?_⟩ <;> omega

/-- Written most significant byte first, the value `ntohl w` shows the bytes the
word `w` has in memory, on either kind of host: `ntohl` reads the four bytes of
the buffer in network order. -/
theorem beBytes32_ntohl (bigEndian : Bool) (w : Nat) :
    beBytes32 (ntohl bigEndian w) = memBytes32 bigEndian w := by
  cases bigEndian
  · obtain ⟨b0, b1, b2, b3⟩ := bytes_of_word (w % 256) (w / 256 % 256) (w / 65536 % 256)
      (w / 16777216 % 256) (Nat.mod_lt _ (by norm_num)) (Nat.mod_lt _ (by norm_num))
      (Nat.mod_lt _ (by norm_num)) (Nat.mod_lt _ (by norm_num))
    simp only [memBytes32, ntohl, beBytes32, bswap32, Bool.false_eq_true, if_false,
      b0, b1, b2, b3]
  · simp only [memBytes32, ntohl, beBytes32, if_true]

theorem bswap32_bytes (a b c d : Nat) (ha : a < 256) (hb : b < 256) (hc : c < 256)
    (hd : d < 256) :
    bswap32 (a * 16777216 + b * 65536 + c * 256 + d)
      = d * 16777216 + c * 65536 + b * 256 + a := by
  unfold bswap32; omega

theorem bswap32_bswap32 (x : Nat) (h : x < 4294967296) : bswap32 (bswap32 x) = x := by
  have e : bswap32 x
      = x % 256 * 16777216 + x / 256 % 256 * 65536 + x / 65536 % 256 * 256
        + x / 16777216 % 256 := rfl
  rw [e, bswap32_bytes _ _ _ _ (Nat.mod_lt _ (by norm_num)) (Nat.mod_lt _ (by norm_num))
    (Nat.mod_lt _ (by norm_num)) (Nat.mod_lt _ (by norm_num))]
  have h1 : x / 256 / 256 = x / 65536 := Nat.div_div_eq_div_mul x 256 256
  have h2 : x / 65536 / 256 = x / 16777216 := Nat.div_div_eq_div_mul x 65536 256
  have h3 : x / 16777216 < 256 := by omega
  omega

theorem ts2nt_lt (ts : Timespec) :
    (ts2nt ts).sec < 4294967296 ∧ (ts2nt ts).frac < 4294967296 := by
  simp only [ts2nt, toU32]
  exact ⟨Nat.mod_lt _ (by norm_num), Nat.mod_lt _ (by norm_num)⟩

theorem n2h_h2n_ts2nt (bigEndian : Bool) (ts : Timespec) :
    n2h_ntp bigEndian (h2n_ntp bigEndian (ts2nt ts)) = ts2nt ts := by
  obtain ⟨h1, h2⟩ := ts2nt_lt ts
  cases bigEndian
  · simp only [n2h_ntp, h2n_ntp, ntohl, htonl, Bool.false_eq_true, if_false,
      bswap32_bswap32 _ h1, bswap32_bswap32 _ h2]
  · simp only [n2h_ntp, h2n_ntp, ntohl, htonl, if_true]

theorem nt_eq_self (a : Ntptime) : nt_eq a a = true := by
  simp [nt_eq]

theorem nt_eq_false_iff (a b : Ntptime) :
    nt_eq a b = false ↔ (a.sec ≠ b.sec ∨ a.frac ≠ b.frac) := by
  simp only [nt_eq, Bool.and_eq_false_imp, decide_eq_true_eq, decide_eq_false_iff_not]
  tauto

/-- A successful `sntp_open` leaves an open descriptor and does not touch the two
timestamps. -/
theorem sntp_open_ok (env : OpenEnv) (s : Sntp)
    (h : (sntp_open env s).1 = SntpErr.SNTP_OK) :
    (sntp_open env s).2.sd ≠ -1 ∧ (sntp_open env s).2.last_send = s.last_send ∧
      (sntp_open env s).2.last_recv = s.last_recv := by
  unfold sntp_open at h ⊢
  by_cases hsd : s.sd ≠ -1
  · simp only [hsd, not_false_eq_true, if_true, and_self, ne_eq]
  · simp only [hsd, if_false] at h ⊢
    cases hr : env.remote with
    | none => simp [hr] at h
    | some aiv =>
      simp only [hr] at h ⊢
      cases hf : firstSocket aiv with
      | none => simp [hf] at h
      | some p =>
        obtain ⟨ai, fd⟩ := p
        simp only [hf] at h ⊢
        cases hl : env.localAddr with
        | none => simp [hl] at h
        | some l =>
          simp only [hl] at h ⊢
          by_cases hb : env.bindOk = false
          · simp [hb] at h
          · by_cases hc : env.connectOk = false
            · simp [hb, hc] at h
            · simp only [hb, hc, if_false]
              refine ⟨?_, rfl, rfl⟩
              show (fd : Int) ≠ -1
              omega

/-- The ways out of a successful `sntp_send`. -/
theorem sntp_send_ok (bigEndian : Bool) (env : OpenEnv) (ts : Timespec) (sendRet : Int)
    (s : Sntp)
    (h : (sntp_send bigEndian env (some ts) sendRet s).ret = SntpErr.SNTP_OK) :
    sntp_send bigEndian env (some ts) sendRet s
        = { ret := SntpErr.SNTP_OK,
            sntp := { (sntp_open env s).2 with last_send := ts2nt ts },
            sent := some (requestMsg bigEndian ts), nt := none } ∧
      (sntp_open env s).1 = SntpErr.SNTP_OK := by
  unfold sntp_send at h ⊢
  rcases ho : sntp_open env s with ⟨se, s1⟩
  rw [ho] at h
  cases se <;> simp only [] at h ⊢
  · by_cases hs : sendRet < 0
    · simp [hs] at h
    · simp only [hs, if_false, and_self]
  all_goals exact absurd h (by decide)

/-- The function `sntp_recv` on a pending session, a datagram of the message
size and a clock sample: the tests on the flags and the originate timestamp, in
the order of the source. -/
theorem sntp_recv_full (bigEndian : Bool) (s : Sntp) (msg : NtpMsg) (ts : Timespec)
    (hp : sntp_pending s = SntpErr.SNTP_OK) :
    sntp_recv bigEndian (RecvResult.got 48 msg) (some ts) s =
      if msg.flags = 0xe4 ∧ msg.stratum = 0 then
        { ret := SntpErr.SNTP_BACKOFF, sntp := s, sent := none, nt := none }
      else if msg.flags = 0x23 then
        { ret := SntpErr.SNTP_BADRESP, sntp := s, sent := none, nt := none }
      else if msg.flags = 0x24 ∨ msg.flags = 0x64 ∨ msg.flags = 0xa4 then
        if nt_eq (n2h_ntp bigEndian msg.originate) s.last_send = false then
          { ret := SntpErr.SNTP_NORESP, sntp := s, sent := none, nt := none }
        else
          { ret := SntpErr.SNTP_OK, sntp := { s with last_recv := ts2nt ts },
            sent := none, nt := some (n2h_ntp bigEndian msg.transmit) }
      else if msg.flags = 0xe4 then
        { ret := SntpErr.SNTP_LAME, sntp := s, sent := none, nt := none }
      else
        { ret := SntpErr.SNTP_BADRESP, sntp := s, sent := none, nt := none } := by
  unfold sntp_recv
  rw [if_neg (by rw [hp]; exact fun h => h rfl)]
  simp only [sizeofNtpMsg]
  rw [if_neg (by decide), if_neg (by decide)]

/-- Every return of `sntp_recv` other than `SNTP_SYSERR` and `SNTP_OK` leaves the
session as it was and stores no timestamp. -/
theorem sntp_recv_frame (bigEndian : Bool) (rr : RecvResult) (clock : Option Timespec)
    (s : Sntp)
    (h1 : (sntp_recv bigEndian rr clock s).ret ≠ SntpErr.SNTP_SYSERR)
    (h2 : (sntp_recv bigEndian rr clock s).ret ≠ SntpErr.SNTP_OK) :
    (sntp_recv bigEndian rr clock s).sntp = s ∧ (sntp_recv bigEndian rr clock s).nt = none := by
  unfold sntp_recv at h1 h2 ⊢
  by_cases hp : sntp_pending s ≠ SntpErr.SNTP_OK
  · rw [if_pos hp]; exact ⟨rfl, rfl⟩
  · rw [if_neg hp] at h1 h2 ⊢
    cases rr with
    | error errno =>
      by_cases he : errno = EAGAIN
      · simp only [he, if_true, and_self]
      · simp only [he, if_false] at h1; exact absurd rfl h1
    | got n msg0 =>
      simp only [] at h1 h2 ⊢
      by_cases hn0 : n = 0
      · simp only [hn0, if_true, and_self]
      · rw [if_neg hn0] at h1 h2 ⊢
        by_cases hn : n ≠ sizeofNtpMsg
        · simp only [hn, if_true, not_false_eq_true, ne_eq, and_self]
        · rw [if_neg hn] at h1 h2 ⊢
          cases clock with
          | none => exact absurd rfl h1
          | some ts =>
            simp only [] at h1 h2 ⊢
            split_ifs at h1 h2 ⊢ <;> first | exact ⟨rfl, rfl⟩ | exact absurd rfl h2

/-- The transport failures of `sntp_poll` close the session. -/
theorem sntp_poll_failure_closes (pr : PollResult) (s : Sntp)
    (hp : sntp_pending s = SntpErr.SNTP_OK)
    (hf : pr = PollResult.error ∨
      ∃ revents, pr = PollResult.ready revents ∧ revents &&& (POLLERR ||| POLLHUP) ≠ 0) :
    sntp_poll pr s
      = { ret := SntpErr.SNTP_SYSERR, sntp := sntp_close s, sent := none, nt := none } := by
  unfold sntp_poll
  rw [if_neg (by rw [hp]; exact fun h => h rfl)]
  rcases hf with rfl | ⟨revents, rfl, hr⟩
  · rfl
  · simp only [hr, ne_eq, not_false_eq_true, if_true]
    rfl

/-- The transport failure of `sntp_recv` closes the session. -/
theorem sntp_recv_failure_closes (bigEndian : Bool) (errno : Int)
    (clock : Option Timespec) (s : Sntp)
    (hp : sntp_pending s = SntpErr.SNTP_OK) (he : errno ≠ EAGAIN) :
    sntp_recv bigEndian (RecvResult.error errno) clock s
      = { ret := SntpErr.SNTP_SYSERR, sntp := sntp_close s, sent := none, nt := none } := by
  unfold sntp_recv
  rw [if_neg (by rw [hp]; exact fun h => h rfl)]
  simp only [he, if_false]

/-! ## sntp.c: the properties -/

/-- C12: for a pending session, a datagram of the message size and an arrival
clock sample, `sntp_recv` goes on to the correlation test (and so returns
`SNTP_OK` or `SNTP_NORESP`) exactly when the flags are 0x24, 0x64 or 0xa4; it
returns `SNTP_BADRESP` for 0x23 and for every value other than those three and
0xe4, and `SNTP_LAME` for 0xe4 with a non-zero stratum. -/
theorem C12_flags_check (bigEndian : Bool) (s : Sntp) (msg : NtpMsg) (ts : Timespec)
    (hp : sntp_pending s = SntpErr.SNTP_OK) :
    (((sntp_recv bigEndian (RecvResult.got 48 msg) (some ts) s).ret = SntpErr.SNTP_OK ∨
        (sntp_recv bigEndian (RecvResult.got 48 msg) (some ts) s).ret = SntpErr.SNTP_NORESP) ↔
      (msg.flags = 0x24 ∨ msg.flags = 0x64 ∨ msg.flags = 0xa4)) ∧
    (msg.flags = 0x23 →
      (sntp_recv bigEndian (RecvResult.got 48 msg) (some ts) s).ret = SntpErr.SNTP_BADRESP) ∧
    (msg.flags ≠ 0x24 → msg.flags ≠ 0x64 → msg.flags ≠ 0xa4 → msg.flags ≠ 0xe4 →
      (sntp_recv bigEndian (RecvResult.got 48 msg) (some ts) s).ret = SntpErr.SNTP_BADRESP) ∧
    (msg.flags = 0xe4 → msg.stratum ≠ 0 →
      (sntp_recv bigEndian (RecvResult.got 48 msg) (some ts) s).ret = SntpErr.SNTP_LAME) := by
  rw [sntp_recv_full bigEndian s msg ts hp]
  refine ⟨?_, ?_, ?_, ?_⟩
  · constructor
    · intro h
      by_contra hacc
      split_ifs at h <;> simp at h
    · intro hacc
      have h1 : ¬(msg.flags = 0xe4 ∧ msg.stratum = 0) := by
        rintro ⟨h, _⟩; rcases hacc with h' | h' | h' <;> omega
      have h2 : ¬(msg.flags = 0x23) := by
        intro h; rcases hacc with h' | h' | h' <;> omega
      rw [if_neg h1, if_neg h2, if_pos hacc]
      split_ifs
      · exact Or.inr rfl
      · exact Or.inl rfl
  · intro h
    rw [if_neg (by rintro ⟨h', _⟩; omega), if_pos h]
  · intro h1 h2 h3 h4
    have hacc : ¬(msg.flags = 0x24 ∨ msg.flags = 0x64 ∨ msg.flags = 0xa4) := by
      rintro (b | b | b)
      · exact h1 b
      · exact h2 b
      · exact h3 b
    rw [if_neg (fun h => h4 h.1)]
    by_cases a : msg.flags = 0x23
    · rw [if_pos a]
    · rw [if_neg a, if_neg hacc, if_neg h4]
  · intro h hs
    rw [if_neg (fun h' => hs h'.2), if_neg (by omega), if_neg (by omega), if_pos h]

theorem C12_flags_check_witness :
    (sntp_recv false
        (RecvResult.got 48
          { flags := 0x23, stratum := 1, poll := 0, precision := 0, root_delay := 0,
            root_dispersion := 0, reference_id := [0, 0, 0, 0],
            reference := { sec := 0, frac := 0 }, originate := { sec := 0, frac := 0 },
            receive := { sec := 0, frac := 0 }, transmit := { sec := 0, frac := 0 } })
        (some { tv_sec := 1700000000, tv_nsec := 0 })
        { family := 2, socktype := 2, protocol := 17, laddr := none, laddrlen := 0,
          raddr := none, raddrlen := 0, sd := 3, pfd_fd := 3, pfd_events := 1,
          pfd_revents := 1, last_send := { sec := 3908988800, frac := 5 },
          last_recv := { sec := 0, frac := 0 } }).ret = SntpErr.SNTP_BADRESP :=
  (C12_flags_check false _ _ _ (by decide)).2.1 rfl

/-- C13: for a pending session, a datagram of the message size with flags 0xe4 and
stratum 0, and an arrival clock sample, `sntp_recv` returns `SNTP_BACKOFF`,
whatever the other fields hold, and leaves the session and the output alone. -/
theorem C13_kiss_of_death (bigEndian : Bool) (s : Sntp) (msg : NtpMsg) (ts : Timespec)
    (hp : sntp_pending s = SntpErr.SNTP_OK) (hf : msg.flags = 0xe4)
    (hs : msg.stratum = 0) :
    sntp_recv bigEndian (RecvResult.got 48 msg) (some ts) s
        = { ret := SntpErr.SNTP_BACKOFF, sntp := s, sent := none, nt := none } ∧
      (sntp_recv bigEndian (RecvResult.got 48 msg) (some ts) s).ret ≠ SntpErr.SNTP_BADRESP ∧
      (sntp_recv bigEndian (RecvResult.got 48 msg) (some ts) s).ret ≠ SntpErr.SNTP_LAME := by
  rw [sntp_recv_full bigEndian s msg ts hp, if_pos ⟨hf, hs⟩]
  exact ⟨rfl, by simp, by simp⟩

theorem C13_kiss_of_death_witness :
    (sntp_recv false
        (RecvResult.got 48
          { flags := 0xe4, stratum := 0, poll := 0, precision := 0, root_delay := 0,
            root_dispersion := 0, reference_id := [82, 65, 84, 69],
            reference := { sec := 0, frac := 0 }, originate := { sec := 7, frac := 9 },
            receive := { sec := 0, frac := 0 }, transmit := { sec := 0, frac := 0 } })
        (some { tv_sec := 1700000000, tv_nsec := 0 })
        { family := 2, socktype := 2, protocol := 17, laddr := none, laddrlen := 0,
          raddr := none, raddrlen := 0, sd := 3, pfd_fd := 3, pfd_events := 1,
          pfd_revents := 1, last_send := { sec := 3908988800, frac := 5 },
          last_recv := { sec := 0, frac := 0 } }).ret = SntpErr.SNTP_BACKOFF :=
  congrArg SntpOutcome.ret (C13_kiss_of_death false _ _ _ (by decide) rfl rfl).1

/-- C14: for a pending session, a datagram of the message size with accepted
flags and an arrival clock sample, when the originate timestamp, converted to
host order, differs from `last_send` in seconds or in fraction, `sntp_recv`
returns `SNTP_NORESP`, stores no timestamp and leaves the session as it was. -/
theorem C14_stale_response (bigEndian : Bool) (s : Sntp) (msg : NtpMsg) (ts : Timespec)
    (hp : sntp_pending s = SntpErr.SNTP_OK)
    (hf : msg.flags = 0x24 ∨ msg.flags = 0x64 ∨ msg.flags = 0xa4)
    (hd : (n2h_ntp bigEndian msg.originate).sec ≠ s.last_send.sec ∨
      (n2h_ntp bigEndian msg.originate).frac ≠ s.last_send.frac) :
    sntp_recv bigEndian (RecvResult.got 48 msg) (some ts) s
      = { ret := SntpErr.SNTP_NORESP, sntp := s, sent := none, nt := none } := by
  have h1 : ¬(msg.flags = 0xe4 ∧ msg.stratum = 0) := by
    rintro ⟨h, _⟩; rcases hf with h' | h' | h' <;> omega
  have h2 : ¬(msg.flags = 0x23) := by
    intro h; rcases hf with h' | h' | h' <;> omega
  rw [sntp_recv_full bigEndian s msg ts hp, if_neg h1, if_neg h2, if_pos hf,
    if_pos ((nt_eq_false_iff _ _).mpr hd)]

theorem C14_stale_response_witness :
    sntp_recv true
        (RecvResult.got 48
          { flags := 0x24, stratum := 2, poll := 0, precision := 0, root_delay := 0,
            root_dispersion := 0, reference_id := [0, 0, 0, 0],
            reference := { sec := 0, frac := 0 },
            originate := { sec := 3908988800, frac := 4 },
            receive := { sec := 0, frac := 0 }, transmit := { sec := 3908988801, frac := 0 } })
        (some { tv_sec := 1700000000, tv_nsec := 0 })
        { family := 2, socktype := 2, protocol := 17, laddr := none, laddrlen := 0,
          raddr := none, raddrlen := 0, sd := 3, pfd_fd := 3, pfd_events := 1,
          pfd_revents := 1, last_send := { sec := 3908988800, frac := 5 },
          last_recv := { sec := 0, frac := 0 } }
      = { ret := SntpErr.SNTP_NORESP,
          sntp := { family := 2, socktype := 2, protocol := 17, laddr := none, laddrlen := 0,
                    raddr := none, raddrlen := 0, sd := 3, pfd_fd := 3, pfd_events := 1,
                    pfd_revents := 1, last_send := { sec := 3908988800, frac := 5 },
                    last_recv := { sec := 0, frac := 0 } },
          sent := none, nt := none } :=
  C14_stale_response true _ _ _ (by decide) (Or.inl rfl) (Or.inr (by decide))

/-- C15: when `sntp_send` succeeds at the clock sample `ts`, the session is
pending, and the datagram read next has the message size, accepted flags and
an originate field equal to the transmit field of the request, `sntp_recv`
returns `SNTP_OK`, stores the datagram's transmit timestamp converted from
network to host order, and sets `last_recv` to `ts2nt` of the arrival sample;
every other field of the session, `sd` and `last_send` among them, is
unchanged.  The stored seconds and fraction, written most significant byte
first, are the eight transmit bytes of the datagram in wire order: on a
little-endian host the buffer words 0x04030201 and 0x08070605 (wire bytes
01 02 03 04 05 06 07 08) come out as 0x01020304 and 0x05060708. -/
theorem C15_matching_response (bigEndian : Bool) (env : OpenEnv) (ts arrival : Timespec)
    (sendRet : Int) (s : Sntp) (msg : NtpMsg)
    (hsend : (sntp_send bigEndian env (some ts) sendRet s).ret = SntpErr.SNTP_OK)
    (hpend : sntp_pending (sntp_send bigEndian env (some ts) sendRet s).sntp
      = SntpErr.SNTP_OK)
    (hflags : msg.flags = 0x24 ∨ msg.flags = 0x64 ∨ msg.flags = 0xa4)
    (horig : (sntp_send bigEndian env (some ts) sendRet s).sent.map NtpMsg.transmit
      = some msg.originate) :
    sntp_recv bigEndian (RecvResult.got 48 msg) (some arrival)
        (sntp_send bigEndian env (some ts) sendRet s).sntp
      = { ret := SntpErr.SNTP_OK,
          sntp := { (sntp_send bigEndian env (some ts) sendRet s).sntp with
                    last_recv := ts2nt arrival },
          sent := none,
          nt := some (n2h_ntp bigEndian msg.transmit) } ∧
      beBytes32 (n2h_ntp bigEndian msg.transmit).sec
        = memBytes32 bigEndian msg.transmit.sec ∧
      beBytes32 (n2h_ntp bigEndian msg.transmit).frac
        = memBytes32 bigEndian msg.transmit.frac ∧
      memBytesNt false { sec := 0x04030201, frac := 0x08070605 }
        = [1, 2, 3, 4, 5, 6, 7, 8] ∧
      n2h_ntp false { sec := 0x04030201, frac := 0x08070605 }
        = { sec := 0x01020304, frac := 0x05060708 } ∧
      memBytesNt true { sec := 0x01020304, frac := 0x05060708 }
        = [1, 2, 3, 4, 5, 6, 7, 8] ∧
      n2h_ntp true { sec := 0x01020304, frac := 0x05060708 }
        = { sec := 0x01020304, frac := 0x05060708 } := by
  obtain ⟨e, _⟩ := sntp_send_ok bigEndian env ts sendRet s hsend
  have h1 : ¬(msg.flags = 0xe4 ∧ msg.stratum = 0) := by
    rintro ⟨h, _⟩; rcases hflags with h' | h' | h' <;> omega
  have h2 : ¬(msg.flags = 0x23) := by
    intro h; rcases hflags with h' | h' | h' <;> omega
  have ho : msg.originate = h2n_ntp bigEndian (ts2nt ts) := by
    rw [e] at horig
    simp only [Option.map_some', requestMsg, Option.some.injEq] at horig
    exact horig.symm
  have hl : (sntp_send bigEndian env (some ts) sendRet s).sntp.last_send = ts2nt ts := by
    rw [e]
  have hq : nt_eq (n2h_ntp bigEndian msg.originate)
      (sntp_send bigEndian env (some ts) sendRet s).sntp.last_send = true := by
    rw [ho, hl, n2h_h2n_ts2nt, nt_eq_self]
  refine ⟨?_, beBytes32_ntohl bigEndian _, beBytes32_ntohl bigEndian _, by decide, by decide,
    by decide, by decide⟩
  rw [sntp_recv_full bigEndian _ msg arrival hpend, if_neg h1, if_neg h2, if_pos hflags,
    if_neg (by rw [hq]; decide)]

theorem C15_matching_response_witness :
    sntp_recv false
        (RecvResult.got 48
          (replyMsg (h2n_ntp false (ts2nt { tv_sec := 1700000000, tv_nsec := 500000000 }))
            { sec := 0x04030201, frac := 0x08070605 }))
        (some { tv_sec := 1700000000, tv_nsec := 550000000 })
        (sntp_send false noHost (some { tv_sec := 1700000000, tv_nsec := 500000000 }) 48
          (openSession { sec := 0, frac := 0 } { sec := 0, frac := 0 })).sntp
      = { ret := SntpErr.SNTP_OK,
          sntp := openSession (ts2nt { tv_sec := 1700000000, tv_nsec := 500000000 })
                    (ts2nt { tv_sec := 1700000000, tv_nsec := 550000000 }),
          sent := none,
          nt := some { sec := 0x01020304, frac := 0x05060708 } } :=
  (C15_matching_response false noHost { tv_sec := 1700000000, tv_nsec := 500000000 }
    { tv_sec := 1700000000, tv_nsec := 550000000 } 48
    (openSession { sec := 0, frac := 0 } { sec := 0, frac := 0 })
    (replyMsg (h2n_ntp false (ts2nt { tv_sec := 1700000000, tv_nsec := 500000000 }))
      { sec := 0x04030201, frac := 0x08070605 })
    (by decide) (by decide) (Or.inl rfl) (by decide)).1

/-- C16, as stated, fails when the clock sample of `sntp_send` lies before the
recorded arrival of the last response (the clock was set back in between):
with `last_recv` at 1700000100.698 s and a send at 1700000000.5 s, `sntp_send`
returns `SNTP_OK` and `sntp_pending` returns `SNTP_NOREQ`. -/
theorem C16_not_pending_after_clock_set_back :
    (sntp_send false noHost (some { tv_sec := 1700000000, tv_nsec := 500000000 }) 48
        (openSession { sec := 0, frac := 0 } { sec := 3908988900, frac := 3000000000 })).ret
        = SntpErr.SNTP_OK ∧
      sntp_pending
        (sntp_send false noHost (some { tv_sec := 1700000000, tv_nsec := 500000000 }) 48
          (openSession { sec := 0, frac := 0 }
            { sec := 3908988900, frac := 3000000000 })).sntp
        = SntpErr.SNTP_NOREQ := by
  decide

/-- C16 (amended): for every session state and every clock sample `ts` of
`sntp_send` whose timestamp `ts2nt ts` is not earlier than the session's
`last_recv`, if `sntp_send` returns `SNTP_OK` then `sntp_pending` called on the
resulting session returns `SNTP_OK`. -/
theorem C16_pending_after_send (bigEndian : Bool) (env : OpenEnv) (ts : Timespec)
    (sendRet : Int) (s : Sntp)
    (hsend : (sntp_send bigEndian env (some ts) sendRet s).ret = SntpErr.SNTP_OK)
    (hclock : ntValue s.last_recv ≤ ntValue (ts2nt ts)) :
    sntp_pending (sntp_send bigEndian env (some ts) sendRet s).sntp = SntpErr.SNTP_OK := by
  obtain ⟨e, ho⟩ := sntp_send_ok bigEndian env ts sendRet s hsend
  obtain ⟨hsd, _, hrecv⟩ := sntp_open_ok env s ho
  obtain ⟨_, hfrac⟩ := ts2nt_lt ts
  rw [e]
  unfold sntp_pending
  dsimp only
  rw [if_neg hsd, hrecv]
  have hlt : nt_lt (ts2nt ts) s.last_recv = false := by
    unfold ntValue at hclock
    simp only [nt_lt, Bool.and_eq_false_imp, decide_eq_true_eq, decide_eq_false_iff_not]
    intro h
    omega
  rw [hlt]
  rfl

theorem C16_pending_after_send_witness :
    sntp_pending
        (sntp_send false noHost (some { tv_sec := 1700000000, tv_nsec := 500000000 }) 48
          (openSession { sec := 0, frac := 0 } { sec := 3908988000, frac := 3000000000 })).sntp
      = SntpErr.SNTP_OK :=
  C16_pending_after_send false noHost { tv_sec := 1700000000, tv_nsec := 500000000 } 48
    (openSession { sec := 0, frac := 0 } { sec := 3908988000, frac := 3000000000 })
    (by decide) (by decide)

/-- C17 fails on the code: a request is sent at 1700000000.10 s, the matching
reply arrives at 1700000000.15 s, `sntp_recv` returns `SNTP_OK` and records an
arrival later than the send time, and `sntp_pending` still returns `SNTP_OK`,
because `nt_lt` asks for smaller seconds and a smaller fraction at once. -/
theorem C17_still_pending_after_reply :
    (sntp_recv false
        (RecvResult.got 48
          (replyMsg (h2n_ntp false (ts2nt { tv_sec := 1700000000, tv_nsec := 100000000 }))
            { sec := 7, frac := 0 }))
        (some { tv_sec := 1700000000, tv_nsec := 150000000 })
        (sntp_send false noHost (some { tv_sec := 1700000000, tv_nsec := 100000000 }) 48
          (openSession { sec := 0, frac := 0 } { sec := 0, frac := 0 })).sntp).ret
        = SntpErr.SNTP_OK ∧
      ntValue (ts2nt { tv_sec := 1700000000, tv_nsec := 100000000 })
        < ntValue (ts2nt { tv_sec := 1700000000, tv_nsec := 150000000 }) ∧
      sntp_pending
        (sntp_recv false
          (RecvResult.got 48
            (replyMsg (h2n_ntp false (ts2nt { tv_sec := 1700000000, tv_nsec := 100000000 }))
              { sec := 7, frac := 0 }))
          (some { tv_sec := 1700000000, tv_nsec := 150000000 })
          (sntp_send false noHost (some { tv_sec := 1700000000, tv_nsec := 100000000 }) 48
            (openSession { sec := 0, frac := 0 } { sec := 0, frac := 0 })).sntp).sntp
        = SntpErr.SNTP_OK := by
  decide

/-- C18 fails on the code: when `send` fails in `sntp_send` on an open session,
`SNTP_SYSERR` is returned and the session is left as it was, descriptor 3 and
both timestamps included; `sntp_close` is not called. -/
theorem C18_send_failure_leaves_session_open :
    (sntp_send false noHost (some { tv_sec := 1700000000, tv_nsec := 500000000 }) (-1)
        (openSession { sec := 3908988000, frac := 5 } { sec := 3908988000, frac := 9 })).ret
        = SntpErr.SNTP_SYSERR ∧
      (sntp_send false noHost (some { tv_sec := 1700000000, tv_nsec := 500000000 }) (-1)
        (openSession { sec := 3908988000, frac := 5 } { sec := 3908988000, frac := 9 })).sntp
        = openSession { sec := 3908988000, frac := 5 } { sec := 3908988000, frac := 9 } ∧
      (openSession { sec := 3908988000, frac := 5 } { sec := 3908988000, frac := 9 }).sd = 3 := by
  decide

/-- C19: whenever `sntp_recv` returns `SNTP_BADRESP`, `SNTP_LAME` or
`SNTP_BACKOFF`, the session is the one it was called with (`sd`, `last_send` and
`last_recv` included), no timestamp is stored, and `sntp_pending` answers as
before the call. -/
theorem C19_rejection_keeps_session (bigEndian : Bool) (rr : RecvResult)
    (clock : Option Timespec) (s : Sntp)
    (h : (sntp_recv bigEndian rr clock s).ret = SntpErr.SNTP_BADRESP ∨
      (sntp_recv bigEndian rr clock s).ret = SntpErr.SNTP_LAME ∨
      (sntp_recv bigEndian rr clock s).ret = SntpErr.SNTP_BACKOFF) :
    (sntp_recv bigEndian rr clock s).sntp = s ∧
      (sntp_recv bigEndian rr clock s).sntp.sd = s.sd ∧
      (sntp_recv bigEndian rr clock s).sntp.last_send = s.last_send ∧
      (sntp_recv bigEndian rr clock s).sntp.last_recv = s.last_recv ∧
      (sntp_recv bigEndian rr clock s).nt = none ∧
      sntp_pending (sntp_recv bigEndian rr clock s).sntp = sntp_pending s := by
  have h1 : (sntp_recv bigEndian rr clock s).ret ≠ SntpErr.SNTP_SYSERR := by
    rcases h with h | h | h <;> rw [h] <;> simp
  have h2 : (sntp_recv bigEndian rr clock s).ret ≠ SntpErr.SNTP_OK := by
    rcases h with h | h | h <;> rw [h] <;> simp
  obtain ⟨e, hn⟩ := sntp_recv_frame bigEndian rr clock s h1 h2
  rw [e]
  exact ⟨rfl, rfl, rfl, rfl, hn, rfl⟩

theorem C19_rejection_keeps_session_witness :
    (sntp_recv false
        (RecvResult.got 12 (replyMsg { sec := 0, frac := 0 } { sec := 0, frac := 0 }))
        (some { tv_sec := 1700000000, tv_nsec := 0 })
        (openSession { sec := 3908988800, frac := 5 } { sec := 0, frac := 0 })).sntp
      = openSession { sec := 3908988800, frac := 5 } { sec := 0, frac := 0 } :=
  (C19_rejection_keeps_session false
    (RecvResult.got 12 (replyMsg { sec := 0, frac := 0 } { sec := 0, frac := 0 }))
    (some { tv_sec := 1700000000, tv_nsec := 0 })
    (openSession { sec := 3908988800, frac := 5 } { sec := 0, frac := 0 })
    (Or.inl (by decide))).1

/-! ## rtc.c: overflow, weekday, ranges, dependence on the fields -/

theorem ckInt_id {x : Int} (h1 : -2147483648 ≤ x) (h2 : x ≤ 2147483647) :
    ckInt (some x) = some x := by
  simp only [ckInt, h1, h2, and_self, if_true]

theorem ckAdd_some (x y : Int) (h1 : -2147483648 ≤ x + y) (h2 : x + y ≤ 2147483647) :
    ckAdd (some x) (some y) = some (x + y) := ckInt_id h1 h2

theorem ckSub_some (x y : Int) (h1 : -2147483648 ≤ x - y) (h2 : x - y ≤ 2147483647) :
    ckSub (some x) (some y) = some (x - y) := ckInt_id h1 h2

theorem ckMul_some (x y : Int) (h1 : -2147483648 ≤ x * y) (h2 : x * y ≤ 2147483647) :
    ckMul (some x) (some y) = some (x * y) := ckInt_id h1 h2

theorem ckDiv_some (x y : Int) (hx : 0 ≤ x) (hy : 0 ≤ y) (h1 : -2147483648 ≤ x / y)
    (h2 : x / y ≤ 2147483647) : ckDiv (some x) (some y) = some (x / y) := by
  show ckInt (some (Int.tdiv x y)) = some (x / y)
  rw [Int.tdiv_eq_ediv hx hy]
  exact ckInt_id h1 h2

/-- No `int` operation of the sum overflows for a valid civil time up to
2038-01-19T03:14:07Z, and the checked sum is the exact second count. -/
theorem tm2tvChecked_exact (c : Tm) (hc : ValidCivil c)
    (hmax : epochSeconds c ≤ 2147483647) : tm2tvChecked c = some (epochSeconds c) := by
  have hy := yday_range c hc
  have hyl := yearLength_bounds (c.tm_year + 1900)
  obtain ⟨h1, h2, h3, h4, h5, h6, h7, h8, h9, h10, h11, h12, h13, h14⟩ := hc
  have hcl := daysToYear_closed (c.tm_year - 70).toNat
  have hn : (((c.tm_year - 70).toNat : Nat) : Int) = c.tm_year - 70 := by omega
  rw [hn] at hcl
  have hE : epochSeconds c = (daysToYear (c.tm_year - 70).toNat + c.tm_yday) * 86400
      + c.tm_hour * 3600 + c.tm_min * 60 + c.tm_sec := by
    unfold epochSeconds daysFromEpoch; omega
  have hyr : c.tm_year ≤ 138 := by omega
  have hq : (c.tm_year - 1) / 100 = (c.tm_year + 299) / 400 := by omega
  have hp : (c.tm_year - 70 + 1) / 4 = (c.tm_year - 69) / 4 := by
    rw [show c.tm_year - 70 + 1 = c.tm_year - 69 by ring]
  have hq1 : (c.tm_year - 70 + 69) / 100 = (c.tm_year + 299) / 400 := by
    rw [show c.tm_year - 70 + 69 = c.tm_year - 1 by ring]; exact hq
  have hq2 : (c.tm_year - 70 + 369) / 400 = (c.tm_year + 299) / 400 := by
    rw [show c.tm_year - 70 + 369 = c.tm_year + 299 by ring]
  rw [hp, hq1, hq2] at hcl
  unfold tm2tvChecked
  rw [ckMul_some c.tm_min 60 (by omega) (by omega)]
  rw [ckAdd_some c.tm_sec (c.tm_min * 60) (by omega) (by omega)]
  rw [ckMul_some c.tm_hour 3600 (by omega) (by omega)]
  rw [ckAdd_some (c.tm_sec + c.tm_min * 60) (c.tm_hour * 3600) (by omega) (by omega)]
  rw [ckMul_some c.tm_yday 86400 (by omega) (by omega)]
  rw [ckAdd_some (c.tm_sec + c.tm_min * 60 + c.tm_hour * 3600) (c.tm_yday * 86400)
    (by omega) (by omega)]
  rw [ckSub_some c.tm_year 70 (by omega) (by omega)]
  rw [ckMul_some (c.tm_year - 70) 31536000 (by omega) (by omega)]
  rw [ckAdd_some (c.tm_sec + c.tm_min * 60 + c.tm_hour * 3600 + c.tm_yday * 86400)
    ((c.tm_year - 70) * 31536000) (by omega) (by omega)]
  rw [ckSub_some c.tm_year 69 (by omega) (by omega)]
  rw [ckDiv_some (c.tm_year - 69) 4 (by omega) (by omega) (by omega) (by omega)]
  rw [ckMul_some ((c.tm_year - 69) / 4) 86400 (by omega) (by omega)]
  rw [ckAdd_some
    (c.tm_sec + c.tm_min * 60 + c.tm_hour * 3600 + c.tm_yday * 86400
      + (c.tm_year - 70) * 31536000)
    ((c.tm_year - 69) / 4 * 86400) (by omega) (by omega)]
  rw [ckSub_some c.tm_year 1 (by omega) (by omega)]
  rw [ckDiv_some (c.tm_year - 1) 100 (by omega) (by omega) (by omega) (by omega)]
  rw [ckMul_some ((c.tm_year - 1) / 100) 86400 (by omega) (by omega)]
  rw [ckSub_some
    (c.tm_sec + c.tm_min * 60 + c.tm_hour * 3600 + c.tm_yday * 86400
      + (c.tm_year - 70) * 31536000 + (c.tm_year - 69) / 4 * 86400)
    ((c.tm_year - 1) / 100 * 86400) (by omega) (by omega)]
  rw [ckAdd_some c.tm_year 299 (by omega) (by omega)]
  rw [ckDiv_some (c.tm_year + 299) 400 (by omega) (by omega) (by omega) (by omega)]
  rw [ckMul_some ((c.tm_year + 299) / 400) 86400 (by omega) (by omega)]
  rw [ckAdd_some
    (c.tm_sec + c.tm_min * 60 + c.tm_hour * 3600 + c.tm_yday * 86400
      + (c.tm_year - 70) * 31536000 + (c.tm_year - 69) / 4 * 86400
      - (c.tm_year - 1) / 100 * 86400)
    ((c.tm_year + 299) / 400 * 86400) (by omega) (by omega)]
  congr 1
  omega

/-- C23 fails on the code at 2038-01-19T03:14:08Z: the sum of the first six terms
is already `2^31`, so an intermediate `int` result overflows, and the value
`tm2tv` returns is not 2147483648; one second earlier no operation overflows
and the result is 2147483647. -/
theorem C23_sum_overflows_at_boundary :
    tm2tvChecked { tm_sec := 8, tm_min := 14, tm_hour := 3, tm_mday := 19, tm_mon := 0,
                   tm_year := 138, tm_wday := 2, tm_yday := 18, tm_isdst := 0 } = none ∧
      (8 : Int) + 14 * 60 + 3 * 3600 + 18 * 86400 + (138 - 70) * 31536000
        + (138 - 69) / 4 * 86400 = 2147483648 ∧
      (tm2tv { tm_sec := 8, tm_min := 14, tm_hour := 3, tm_mday := 19, tm_mon := 0,
               tm_year := 138, tm_wday := 2, tm_yday := 18, tm_isdst := 0 }).tv_sec
        ≠ 2147483648 ∧
      tm2tvChecked { tm_sec := 7, tm_min := 14, tm_hour := 3, tm_mday := 19, tm_mon := 0,
                     tm_year := 138, tm_wday := 2, tm_yday := 18, tm_isdst := 0 }
        = some 2147483647 := by
  decide

/-- C23 up to 2038-01-19T03:14:07Z: evaluated in 32-bit `int`, no intermediate
result of the sum in `tm2tv` overflows for any valid civil time from
1970-01-01T00:00:00Z through 2038-01-19T03:14:07Z, and `tm2tv` returns the exact
second count, 2147483647 at the upper end. -/
theorem C23_no_overflow_up_to_int_max (c : Tm) (hc : ValidCivil c)
    (hmax : epochSeconds c ≤ 2147483647) :
    tm2tvChecked c = some (epochSeconds c) ∧ (tm2tv c).tv_sec = epochSeconds c := by
  refine ⟨tm2tvChecked_exact c hc hmax, ?_⟩
  rw [tm2tv_exact c hc hmax]

theorem C23_no_overflow_up_to_int_max_witness :
    tm2tvChecked { tm_sec := 7, tm_min := 14, tm_hour := 3, tm_mday := 19, tm_mon := 0,
                   tm_year := 138, tm_wday := 2, tm_yday := 18, tm_isdst := 0 }
        = some (epochSeconds { tm_sec := 7, tm_min := 14, tm_hour := 3, tm_mday := 19,
                               tm_mon := 0, tm_year := 138, tm_wday := 2, tm_yday := 18,
                               tm_isdst := 0 }) ∧
      (tm2tv { tm_sec := 7, tm_min := 14, tm_hour := 3, tm_mday := 19, tm_mon := 0,
               tm_year := 138, tm_wday := 2, tm_yday := 18, tm_isdst := 0 }).tv_sec
        = epochSeconds { tm_sec := 7, tm_min := 14, tm_hour := 3, tm_mday := 19,
                         tm_mon := 0, tm_year := 138, tm_wday := 2, tm_yday := 18,
                         tm_isdst := 0 } :=
  C23_no_overflow_up_to_int_max _ (by decide) (by decide)

/-- C24: for every `t ≥ 0`, `tv2tm` returns a record with
`tm_wday = (t / 86400 + 4) mod 7`, a value from 0 to 6; `tv2tm 0` has weekday 4
and `tv2tm 2147483647` has weekday 2. -/
theorem C24_weekday (tv : Timeval) (h : 0 ≤ tv.tv_sec) :
    (∃ tm, tv2tm tv = some tm ∧ tm.tm_wday = (tv.tv_sec / 86400 + 4) % 7 ∧
      0 ≤ tm.tm_wday ∧ tm.tm_wday ≤ 6) ∧
    (tv2tm { tv_sec := 0, tv_usec := 0 }).map Tm.tm_wday = some 4 ∧
    (tv2tm { tv_sec := 2147483647, tv_usec := 0 }).map Tm.tm_wday = some 2 := by
  refine ⟨?_, by decide, by decide⟩
  obtain ⟨tm, _, _, e, _, _, _, hw, _⟩ := tv2tm_total tv h
  exact ⟨tm, e, hw, by omega, by omega⟩

theorem C24_weekday_witness :
    ∃ tm, tv2tm { tv_sec := 951782400, tv_usec := 0 } = some tm ∧
      tm.tm_wday = ((951782400 : Int) / 86400 + 4) % 7 ∧ 0 ≤ tm.tm_wday ∧ tm.tm_wday ≤ 6 :=
  (C24_weekday { tv_sec := 951782400, tv_usec := 0 } (by decide)).1

/-- C29, as stated, fails once the `int` year counter of `tv2tm` has passed
2147483647: at the instant 67767977879711999 `tv2tm` returns day 29 of February
in the year 2147483700, which is not a leap year and whose February has 28
days. -/
theorem C29_day_past_month_end :
    tv2tm { tv_sec := 67767977879711999, tv_usec := 0 }
        = some { tm_sec := 59, tm_min := 59, tm_hour := 23, tm_mday := 29, tm_mon := 1,
                 tm_year := 2147481800, tm_wday := 1, tm_yday := 59, tm_isdst := 0 } ∧
      ¬ isLeapYear (2147481800 + 1900) ∧
      monthLength (2147481800 + 1900) (1 : Int).toNat = 28 :=
  ⟨tv2tm_eval { tv_sec := 67767977879711999, tv_usec := 0 } 784351595830
      784351595829 59 59 23 1 59 (-2147483596) 1 28 1 (by decide) (by decide) (by decide)
      (by decide) (by decide) (by rfl) yearLoop_after_wrap (by decide),
    by decide, by decide⟩

/-- C29 (amended): for every `t` with `0 ≤ t < 67767976233532800` (before
1 January 2147483648), `tv2tm` returns a record (both loops leave through their
`break`, and `mdays` is never read past index 11) whose fields are in range:
seconds and minutes 0 to 59, hours 0 to 23, weekday 0 to 6, day of the year 0 to
364 (365 in a leap year), month 0 to 11, day of the month from 1 to the length of
that month. -/
theorem C29_fields_in_range (tv : Timeval) (h : 0 ≤ tv.tv_sec)
    (hmax : tv.tv_sec < 67767976233532800) :
    ∃ tm, tv2tm tv = some tm ∧
      0 ≤ tm.tm_sec ∧ tm.tm_sec ≤ 59 ∧ 0 ≤ tm.tm_min ∧ tm.tm_min ≤ 59 ∧
      0 ≤ tm.tm_hour ∧ tm.tm_hour ≤ 23 ∧ 0 ≤ tm.tm_wday ∧ tm.tm_wday ≤ 6 ∧
      0 ≤ tm.tm_yday ∧
      tm.tm_yday ≤ (if isLeapYear (tm.tm_year + 1900) then 365 else 364) ∧
      0 ≤ tm.tm_mon ∧ tm.tm_mon ≤ 11 ∧
      1 ≤ tm.tm_mday ∧ tm.tm_mday ≤ monthLength (tm.tm_year + 1900) tm.tm_mon.toNat ∧
      monthLength (tm.tm_year + 1900) tm.tm_mon.toNat ≤ 31 := by
  obtain ⟨tm, e, hv, _, hw⟩ := tv2tm_spec tv h hmax
  have hy := yday_range tm hv
  obtain ⟨h1, h2, h3, h4, h5, h6, h7, h8, h9, h10, h11, h12, h13, h14⟩ := hv
  have hyd : tm.tm_yday ≤ (if isLeapYear (tm.tm_year + 1900) then 365 else 364) := by
    have := hy.2
    unfold yearLength at this
    split_ifs at this ⊢ <;> omega
  have hml : monthLength (tm.tm_year + 1900) tm.tm_mon.toNat ≤ 31 := by
    unfold monthLength; split <;> (try split_ifs) <;> omega
  exact ⟨tm, e, h10, h11, h8, h9, h6, h7, by omega, by omega, hy.1, hyd, h2, h3, h4, h5, hml⟩

theorem C29_fields_in_range_witness :
    ∃ tm, tv2tm { tv_sec := 951782400, tv_usec := 0 } = some tm ∧
      0 ≤ tm.tm_sec ∧ tm.tm_sec ≤ 59 ∧ 0 ≤ tm.tm_min ∧ tm.tm_min ≤ 59 ∧
      0 ≤ tm.tm_hour ∧ tm.tm_hour ≤ 23 ∧ 0 ≤ tm.tm_wday ∧ tm.tm_wday ≤ 6 ∧
      0 ≤ tm.tm_yday ∧
      tm.tm_yday ≤ (if isLeapYear (tm.tm_year + 1900) then 365 else 364) ∧
      0 ≤ tm.tm_mon ∧ tm.tm_mon ≤ 11 ∧
      1 ≤ tm.tm_mday ∧ tm.tm_mday ≤ monthLength (tm.tm_year + 1900) tm.tm_mon.toNat ∧
      monthLength (tm.tm_year + 1900) tm.tm_mon.toNat ≤ 31 :=
  C29_fields_in_range { tv_sec := 951782400, tv_usec := 0 } (by decide) (by decide)

/-- C30: two `struct tm` values that agree on `tm_sec`, `tm_min`, `tm_hour`,
`tm_yday` and `tm_year` are converted by `tm2tv`, and so by `rtc_get`, to the
same `struct timeval`, whatever `tm_mon`, `tm_mday`, `tm_wday` and `tm_isdst`
hold; when the second one is a valid civil time up to 2038-01-19T03:14:07Z, the
first is converted to the instant of that civil time, the `tm_yday`-th day of
the year. -/
theorem C30_tm2tv_reads_five_fields (a b : Tm)
    (hsec : a.tm_sec = b.tm_sec) (hmin : a.tm_min = b.tm_min)
    (hhour : a.tm_hour = b.tm_hour) (hyday : a.tm_yday = b.tm_yday)
    (hyear : a.tm_year = b.tm_year) :
    tm2tv a = tm2tv b ∧ rtc_get (some a) = rtc_get (some b) ∧
      (ValidCivil b → epochSeconds b ≤ 2147483647 →
        rtc_get (some a) = some { tv_sec := epochSeconds b, tv_usec := 0 }) := by
  have e : tm2tv a = tm2tv b := by
    unfold tm2tv
    rw [hsec, hmin, hhour, hyday, hyear]
  refine ⟨e, ?_, ?_⟩
  · show some (tm2tv a) = some (tm2tv b)
    rw [e]
  · intro hv hmax
    show some (tm2tv a) = _
    rw [e, tm2tv_exact b hv hmax]

theorem C30_tm2tv_reads_five_fields_witness :
    tm2tv { tm_sec := 0, tm_min := 0, tm_hour := 0, tm_mday := 1, tm_mon := 2,
            tm_year := 100, tm_wday := 3, tm_yday := 0, tm_isdst := 0 }
        = tm2tv { tm_sec := 0, tm_min := 0, tm_hour := 0, tm_mday := 1, tm_mon := 0,
                  tm_year := 100, tm_wday := 6, tm_yday := 0, tm_isdst := 0 } ∧
      rtc_get (some { tm_sec := 0, tm_min := 0, tm_hour := 0, tm_mday := 1, tm_mon := 2,
                      tm_year := 100, tm_wday := 3, tm_yday := 0, tm_isdst := 0 })
        = some { tv_sec := epochSeconds
                   { tm_sec := 0, tm_min := 0, tm_hour := 0, tm_mday := 1, tm_mon := 0,
                     tm_year := 100, tm_wday := 6, tm_yday := 0, tm_isdst := 0 },
                 tv_usec := 0 } :=
  have h := C30_tm2tv_reads_five_fields
    { tm_sec := 0, tm_min := 0, tm_hour := 0, tm_mday := 1, tm_mon := 2,
      tm_year := 100, tm_wday := 3, tm_yday := 0, tm_isdst := 0 }
    { tm_sec := 0, tm_min := 0, tm_hour := 0, tm_mday := 1, tm_mon := 0,
      tm_year := 100, tm_wday := 6, tm_yday := 0, tm_isdst := 0 }
    rfl rfl rfl rfl rfl
  ⟨h.1, h.2.2 (by decide) (by decide)⟩

/-! ## sntp.h and sntp.c: comparison, rollover, wire format -/

/-- The comparison macros never claim an order the 64-bit values do not have,
for timestamps whose fractions fit 32 bits. -/
theorem nt_cmp_sound (a b : Ntptime) (ha : a.frac < 4294967296) (hb : b.frac < 4294967296) :
    (nt_lt a b = true → ntValue a < ntValue b) ∧
      (nt_le a b = true → ntValue a ≤ ntValue b) ∧
      (nt_gt a b = true → ntValue a > ntValue b) ∧
      (nt_ge a b = true → ntValue a ≥ ntValue b) ∧
      (nt_eq a b = true ↔ ntValue a = ntValue b) := by
  simp only [nt_lt, nt_le, nt_gt, nt_ge, nt_eq, ntValue, Bool.and_eq_true, decide_eq_true_eq]
  refine ⟨?_, ?_, ?_, ?_, ?_, ?_⟩ <;> intro h <;> omega

/-- C21 fails on the code: for a = (sec 1, frac 5) and b = (sec 2, frac 3) the
64-bit value of a is below that of b, yet `nt_lt a b` and `nt_le a b` are false,
and so are `nt_gt b a` and `nt_ge b a`: `nt_cmp` applies the operator to the
seconds and to the fractions and joins the two results with `&&`. -/
theorem C21_nt_cmp_is_componentwise :
    ntValue { sec := 1, frac := 5 } < ntValue { sec := 2, frac := 3 } ∧
      nt_lt { sec := 1, frac := 5 } { sec := 2, frac := 3 } = false ∧
      nt_le { sec := 1, frac := 5 } { sec := 2, frac := 3 } = false ∧
      nt_gt { sec := 2, frac := 3 } { sec := 1, frac := 5 } = false ∧
      nt_ge { sec := 2, frac := 3 } { sec := 1, frac := 5 } = false := by
  decide

/-- C28: for `tv_usec` in `[0, 999999]`, `tv2nt` yields
`sec = (tv_sec + 2208988800) mod 2^32` and `frac = tv_usec * 2^32 / 1000000`,
a quotient below `2^32`; for a fraction below `2^32`, `nt2tv` yields
`tv_usec = frac * 1000000 / 2^32`, which lies in `[0, 999999]`. -/
theorem C28_fraction_conversion (tv : Timeval) (nt : Ntptime)
    (hu0 : 0 ≤ tv.tv_usec) (hu1 : tv.tv_usec ≤ 999999) (hf : nt.frac < 4294967296) :
    ((tv2nt tv).sec : Int) = (tv.tv_sec + 2208988800) % 4294967296 ∧
      (tv2nt tv).frac = tv.tv_usec.toNat * 4294967296 / 1000000 ∧
      tv.tv_usec.toNat * 4294967296 / 1000000 < 4294967296 ∧
      (nt2tv nt).tv_usec = ((nt.frac * 1000000 / 4294967296 : Nat) : Int) ∧
      0 ≤ (nt2tv nt).tv_usec ∧ (nt2tv nt).tv_usec ≤ 999999 := by
  have a1 : toU64 tv.tv_usec = tv.tv_usec.toNat := toU64_of_small _ hu0 (by omega)
  have a2 : tv.tv_usec.toNat * 4294967296 % 18446744073709551616
      = tv.tv_usec.toNat * 4294967296 := Nat.mod_eq_of_lt (by omega)
  have a3 : tv.tv_usec.toNat * 4294967296 / 1000000 < 4294967296 := by omega
  have b1 : nt.frac * 1000000 % 18446744073709551616 = nt.frac * 1000000 :=
    Nat.mod_eq_of_lt (by omega)
  have b2 : nt.frac * 1000000 / 4294967296 < 1000000 := by omega
  have b3 : (nt2tv nt).tv_usec = ((nt.frac * 1000000 / 4294967296 : Nat) : Int) := by
    simp only [nt2tv, Nat.reduceMul, b1]
    exact toS64_of_small _ (by omega)
  refine ⟨?_, ?_, a3, b3, ?_, ?_⟩
  · simp only [tv2nt, toU64, toU32, UNIX_EPOCH]
    omega
  · simp only [tv2nt, a1, a2, Nat.reduceMul, toU32]
    exact Nat.mod_eq_of_lt a3
  · rw [b3]; omega
  · rw [b3]; omega

theorem C28_fraction_conversion_witness :
    (tv2nt { tv_sec := 2085978496, tv_usec := 999999 }).frac
      = (999999 : Int).toNat * 4294967296 / 1000000 :=
  (C28_fraction_conversion { tv_sec := 2085978496, tv_usec := 999999 }
    { sec := 0, frac := 4294967295 } (by decide) (by decide) (by decide)).2.1

/-- In memory, the value `htonl x` shows the bytes of `x`, most significant
first, on either kind of host. -/
theorem memBytes32_htonl (bigEndian : Bool) (x : Nat) :
    memBytes32 bigEndian (htonl bigEndian x) = beBytes32 x := by
  cases bigEndian
  · obtain ⟨b0, b1, b2, b3⟩ := bytes_of_word (x % 256) (x / 256 % 256) (x / 65536 % 256)
      (x / 16777216 % 256) (Nat.mod_lt _ (by norm_num)) (Nat.mod_lt _ (by norm_num))
      (Nat.mod_lt _ (by norm_num)) (Nat.mod_lt _ (by norm_num))
    simp only [memBytes32, htonl, beBytes32, bswap32, Bool.false_eq_true, if_false,
      b0, b1, b2, b3]
  · simp only [memBytes32, htonl, beBytes32, if_true]

/-- The bytes of the request built by `sntp_send`. -/
theorem msgBytes_requestMsg (bigEndian : Bool) (ts : Timespec) :
    msgBytes bigEndian (requestMsg bigEndian ts)
      = 0x23 :: List.replicate 39 0
          ++ (beBytes32 (ts2nt ts).sec ++ beBytes32 (ts2nt ts).frac) := by
  have z : memBytes32 bigEndian 0 = [0, 0, 0, 0] := by
    cases bigEndian <;> rfl
  simp only [msgBytes, requestMsg, memBytesNt, h2n_ntp, z, memBytes32_htonl]
  rfl

/-- C25: whenever `sntp_send` gets as far as building its request (the session
opens and the clock sample `ts` is taken), the datagram handed to `send` is 48
bytes long: byte 0 is 0x23, bytes 1 to 39 are zero, bytes 40 to 47 are the
seconds and the fraction of `ts2nt ts`, most significant byte first; and when
`send` succeeds `last_send` is `ts2nt ts`. -/
theorem C25_request_datagram (bigEndian : Bool) (env : OpenEnv) (ts : Timespec)
    (sendRet : Int) (s : Sntp)
    (hopen : (sntp_open env s).1 = SntpErr.SNTP_OK) :
    (∃ msg, (sntp_send bigEndian env (some ts) sendRet s).sent = some msg ∧
      (msgBytes bigEndian msg).length = 48 ∧
      msgBytes bigEndian msg
        = 0x23 :: List.replicate 39 0
            ++ (beBytes32 (ts2nt ts).sec ++ beBytes32 (ts2nt ts).frac)) ∧
    (0 ≤ sendRet →
      (sntp_send bigEndian env (some ts) sendRet s).ret = SntpErr.SNTP_OK ∧
      (sntp_send bigEndian env (some ts) sendRet s).sntp.last_send = ts2nt ts) := by
  have hb := msgBytes_requestMsg bigEndian ts
  have hl : (msgBytes bigEndian (requestMsg bigEndian ts)).length = 48 := by
    rw [hb]; rfl
  unfold sntp_send
  rcases ho : sntp_open env s with ⟨se, s1⟩
  rw [ho] at hopen
  simp only [] at hopen
  subst hopen
  simp only []
  by_cases hs : sendRet < 0
  · simp only [hs, if_true]
    exact ⟨⟨_, rfl, hl, hb⟩, fun h => absurd hs (by omega)⟩
  · simp only [hs, if_false]
    exact ⟨⟨_, rfl, hl, hb⟩, fun _ => by simp⟩

theorem C25_request_datagram_witness :
    ∃ msg, (sntp_send false noHost (some { tv_sec := 1700000000, tv_nsec := 500000000 }) 48
        (openSession { sec := 0, frac := 0 } { sec := 0, frac := 0 })).sent = some msg ∧
      (msgBytes false msg).length = 48 ∧
      msgBytes false msg
        = 0x23 :: List.replicate 39 0
            ++ (beBytes32 (ts2nt { tv_sec := 1700000000, tv_nsec := 500000000 }).sec
              ++ beBytes32 (ts2nt { tv_sec := 1700000000, tv_nsec := 500000000 }).frac) :=
  (C25_request_datagram false noHost { tv_sec := 1700000000, tv_nsec := 500000000 } 48
    (openSession { sec := 0, frac := 0 } { sec := 0, frac := 0 }) (by decide)).1

/-- C26, as stated, fails at both ends: a datagram of length 0 makes `recv` return
0 and `sntp_recv` return `SNTP_NORESP`; a datagram of 60 bytes is cut to the 48
bytes of the buffer, `recv` returns 48, and a matching reply is accepted with
`SNTP_OK` and changes `last_recv`. -/
theorem C26_lengths_not_rejected :
    (sntp_recv false (recvDatagram 0 (replyMsg { sec := 0, frac := 0 } { sec := 0, frac := 0 }))
        (some { tv_sec := 1700000000, tv_nsec := 0 })
        (openSession { sec := 3908988800, frac := 5 } { sec := 0, frac := 0 })).ret
        = SntpErr.SNTP_NORESP ∧
      (sntp_recv false
        (recvDatagram 60
          (replyMsg (h2n_ntp false { sec := 3908988800, frac := 5 }) { sec := 7, frac := 0 }))
        (some { tv_sec := 1700000000, tv_nsec := 0 })
        (openSession { sec := 3908988800, frac := 5 } { sec := 0, frac := 0 })).ret
        = SntpErr.SNTP_OK ∧
      (sntp_recv false
        (recvDatagram 60
          (replyMsg (h2n_ntp false { sec := 3908988800, frac := 5 }) { sec := 7, frac := 0 }))
        (some { tv_sec := 1700000000, tv_nsec := 0 })
        (openSession { sec := 3908988800, frac := 5 } { sec := 0, frac := 0 })).sntp
        ≠ openSession { sec := 3908988800, frac := 5 } { sec := 0, frac := 0 } := by
  decide

/-- C26 (amended): for a pending session, if the datagram read by `sntp_recv` is
1 to 47 bytes long, `sntp_recv` returns `SNTP_BADRESP` and leaves the session
unchanged, whatever the buffer and the clock hold. -/
theorem C26_short_datagram (bigEndian : Bool) (len : Nat) (msg : NtpMsg)
    (clock : Option Timespec) (s : Sntp)
    (hp : sntp_pending s = SntpErr.SNTP_OK) (h1 : 1 ≤ len) (h2 : len ≤ 47) :
    sntp_recv bigEndian (recvDatagram len msg) clock s
      = { ret := SntpErr.SNTP_BADRESP, sntp := s, sent := none, nt := none } := by
  have hm : min len sizeofNtpMsg = len := by
    unfold sizeofNtpMsg; omega
  unfold sntp_recv recvDatagram
  rw [if_neg (by rw [hp]; exact fun h => h rfl), hm]
  simp only []
  rw [if_neg (by omega), if_pos (by unfold sizeofNtpMsg; omega)]

theorem C26_short_datagram_witness :
    sntp_recv false
        (recvDatagram 47 (replyMsg { sec := 0, frac := 0 } { sec := 0, frac := 0 }))
        none (openSession { sec := 3908988800, frac := 5 } { sec := 0, frac := 0 })
      = { ret := SntpErr.SNTP_BADRESP,
          sntp := openSession { sec := 3908988800, frac := 5 } { sec := 0, frac := 0 },
          sent := none, nt := none } :=
  C26_short_datagram false 47 (replyMsg { sec := 0, frac := 0 } { sec := 0, frac := 0 })
    none (openSession { sec := 3908988800, frac := 5 } { sec := 0, frac := 0 })
    (by decide) (by decide) (by decide)

/-- C27 fails on the code: with marks 1000 and 1000000, local time 100 s and
reference time 100.002 s, the slew succeeds and `last_adjust` becomes the local
time 100000000, not the reference time 100002000; `last_step` is unchanged.
`tod_slew` is called with `lt` in the place of `rt`. -/
theorem C27_slew_records_local_time :
    usecOf { tv_sec := 100, tv_usec := 2000 } = 100002000 ∧
      tod_set true 0 (fun _ => true)
          { last_step := 5, last_adjust := 0, low_water := 1000, high_water := 1000000 }
          { tv_sec := 100, tv_usec := 0 } { tv_sec := 100, tv_usec := 2000 }
        = { ret := 0,
            tod := { last_step := 5, last_adjust := 100000000, low_water := 1000,
                     high_water := 1000000 },
            calls := [HostCall.adjtimex 0] } := by
  decide

/-! ## rtcd.c: the properties -/

/-- C31 fails on the code: processing `-a optarg` assigns `optarg` to
`sntp_srcaddr` and, `case 'a'` running on into `case 'd'`, to `rtc_device` as
well; after `rtcd -a 192.0.2.1` the device path is "192.0.2.1", no longer
"/dev/rtc0", and a device path given earlier with `-d` is overwritten too.
The remaining variables keep their values. -/
theorem C31_srcaddr_option_sets_device (ll_optarg : String → Option Int) (optarg : String)
    (c : Config) :
    mainOption ll_optarg 'a' optarg c
        = some { c with sntp_srcaddr := some optarg, rtc_device := some optarg } ∧
      (mainOptions ll_optarg [('a', "192.0.2.1")] initialConfig).map Config.rtc_device
        = some (some "192.0.2.1") ∧
      initialConfig.rtc_device = some "/dev/rtc0" ∧
      (mainOptions ll_optarg [('d', "/dev/rtc1"), ('a', "192.0.2.1")] initialConfig).map
          Config.rtc_device
        = some (some "192.0.2.1") ∧
      mainOption ll_optarg 'd' optarg c = some { c with rtc_device := some optarg } := by
  refine ⟨?_, ?_, rfl, ?_, ?_⟩
  · simp [mainOption]
  · simp [mainOptions, mainOption]
  · simp [mainOptions, mainOption]
  · simp [mainOption]

end Ttsntpd
